import Mathlib

/-!
Verification development for the farmer advisory multi-agent system
(`src/agents/orchestrator.py`, `src/agents/soil_agent.py`,
`src/agents/weather_agent.py`, `src/agents/crop_planning_agent.py`,
`src/voice/rate_limiter.py`).

Modelling conventions:
* Python floats are modelled as `ℚ`; `round(x, n)` is modelled by
  round-half-to-even (`bankersRound`), matching Python's `round`.
* Python strings are Lean `String`s; the substring test `needle in hay`
  is `strHasSub hay needle`; `"\n".join(parts)` is `joinSep "\n" parts`.
* External effects (the retrieval service, the learning store, the live
  weather API, the wall clock, and the `re` captures of numeric values)
  are inputs of the model, collected in `ExternEnv`.  A Boolean
  `...Fails` field models an exception raised by an external call inside
  an agent's `try:` block (e.g. the retrieval service), which the agent
  catches, returning its error-default result.
* DynamoDB state touched by the rate limiter is modelled as an explicit
  `Option RLEntry` value threaded through `checkAndIncrement`.
-/

/-- Does `needle` match at the head of `hay`? (character-wise prefix test). -/
def matchesAt : List Char → List Char → Bool
  | [], _ => true
  | _ :: _, [] => false
  | a :: as, b :: bs => a == b && matchesAt as bs

/-- Does `needle` occur contiguously anywhere in `hay`?  Models Python's
`needle in hay` on strings (viewed as character lists). -/
def subListB (needle : List Char) : List Char → Bool
  | [] => matchesAt needle []
  | c :: t => matchesAt needle (c :: t) || subListB needle t

/-- Python's substring test `needle in hay`. -/
def strHasSub (hay needle : String) : Bool :=
  subListB needle.data hay.data

/-- Python's `sep.join(parts)`. -/
def joinSep (sep : String) : List String → String
  | [] => ""
  | x :: xs =>
    match xs with
    | [] => x
    | _ :: _ => x ++ sep ++ joinSep sep xs

/-- Round-half-to-even to an integer; models Python's `round(x)` (and the
`:.0f` format) on exact values. -/
def bankersRound (q : ℚ) : ℤ :=
  if q - ⌊q⌋ < 1 / 2 then ⌊q⌋
  else if 1 / 2 < q - ⌊q⌋ then ⌊q⌋ + 1
  else if ⌊q⌋ % 2 = 0 then ⌊q⌋ else ⌊q⌋ + 1

/-- Python's `round(x, 2)`. -/
def round2 (q : ℚ) : ℚ := bankersRound (q * 100) / 100

/-- Python's `round(x, 1)`. -/
def round1 (q : ℚ) : ℚ := bankersRound (q * 10) / 10

/-- Python's `int(x)` on a float: truncation toward zero. -/
def truncQ (q : ℚ) : ℤ := if 0 ≤ q then ⌊q⌋ else ⌈q⌉

/-- Render an integer (used for Python f-string `{n}` on ints and `:.0f`). -/
def fmtZ (n : ℤ) : String := toString n

/-- Python's `f"{x:.0f}"` on an exact value: round half-to-even, print. -/
def fmtPct (q : ℚ) : String := toString (bankersRound q)

/-- Approximate rendering of a Python float.  Integral values print as
`n.0` like Python; non-integral rationals are printed as `num/den`
(the claims never depend on the digits of a number inside a prompt). -/
def fmtQ (q : ℚ) : String :=
  if q.den = 1 then toString q.num ++ ".0"
  else toString q.num ++ "/" ++ toString q.den

/-- A run of 40 `=` characters (`"=" * 40` in the source). -/
def sepLine : String := String.mk (List.replicate 40 '=')

/-- Python's `str.lower()` (ASCII; query text is ASCII). -/
def lowerStr (s : String) : String := String.mk (s.data.map Char.toLower)

/-- Python's `.replace(" ", "_")` (the replaced pattern is a single
character, so a character-wise map is exact). -/
def underscoreSpaces (s : String) : String :=
  String.mk (s.data.map fun c => if c = ' ' then '_' else c)

/-- `len(s.split())` in Python: number of maximal non-whitespace runs. -/
def wordCountAux : List Char → Bool → ℕ
  | [], _ => 0
  | c :: cs, inWord =>
    if c.isWhitespace then wordCountAux cs false
    else (if inWord then 0 else 1) + wordCountAux cs true

/-- Python's `len(s.split())`. -/
def wordCount (s : String) : ℕ := wordCountAux s.data false

-- Basic lemmas about the substring test ---------------------------------

theorem matchesAt_append (n h s : List Char) (hm : matchesAt n h = true) :
    matchesAt n (h ++ s) = true := by
  induction n generalizing h with
  | nil => simp [matchesAt]
  | cons a as ih =>
    cases h with
    | nil => simp [matchesAt] at hm
    | cons b bs =>
      simp only [matchesAt, Bool.and_eq_true] at hm ⊢
      exact ⟨hm.1, ih bs hm.2⟩

theorem subListB_append_right (n h s : List Char) (hm : subListB n h = true) :
    subListB n (h ++ s) = true := by
  induction h with
  | nil =>
    cases n with
    | nil => cases s <;> simp [subListB, matchesAt]
    | cons a as => simp [subListB, matchesAt] at hm
  | cons c t ih =>
    simp only [subListB, Bool.or_eq_true] at hm ⊢
    rcases hm with hm | hm
    · exact Or.inl (matchesAt_append _ _ _ hm)
    · exact Or.inr (ih hm)

theorem subListB_append_left (n h p : List Char) (hm : subListB n h = true) :
    subListB n (p ++ h) = true := by
  induction p with
  | nil => simpa using hm
  | cons c t ih => simp only [List.cons_append, subListB, Bool.or_eq_true]; exact Or.inr ih

theorem strHasSub_append_left (a b t : String) (hm : strHasSub b t = true) :
    strHasSub (a ++ b) t = true := by
  unfold strHasSub at hm ⊢
  rw [String.data_append]
  exact subListB_append_left _ _ _ hm

theorem strHasSub_append_right (a b t : String) (hm : strHasSub a t = true) :
    strHasSub (a ++ b) t = true := by
  unfold strHasSub at hm ⊢
  rw [String.data_append]
  exact subListB_append_right _ _ _ hm

/-- If some part contains the needle, so does the joined string. -/
theorem strHasSub_joinSep (sep t : String) (parts : List String) (p : String)
    (hp : p ∈ parts) (hm : strHasSub p t = true) :
    strHasSub (joinSep sep parts) t = true := by
  induction parts with
  | nil => cases hp
  | cons x xs ih =>
    rcases List.mem_cons.mp hp with rfl | hp
    · cases xs with
      | nil => simpa [joinSep] using hm
      | cons y ys =>
        show strHasSub (p ++ sep ++ joinSep sep (y :: ys)) t = true
        exact strHasSub_append_right _ _ _ (strHasSub_append_right _ _ _ hm)
    · cases xs with
      | nil => cases hp
      | cons y ys =>
        show strHasSub (x ++ sep ++ joinSep sep (y :: ys)) t = true
        exact strHasSub_append_left _ _ _ (ih hp)

-- Rounding bounds --------------------------------------------------------

theorem bankersRound_le (q : ℚ) (b : ℤ) (h : q ≤ b) : bankersRound q ≤ b := by
  have hf : ⌊q⌋ ≤ b := by
    have := Int.floor_mono h
    simpa using this
  have hfl := Int.floor_le q
  unfold bankersRound
  split_ifs with h1 h2 h3
  · exact hf
  · have hlt : (⌊q⌋ : ℚ) < q := by linarith
    have hb : ⌊q⌋ < b := by exact_mod_cast lt_of_lt_of_le hlt h
    omega
  · exact hf
  · have hlt : (⌊q⌋ : ℚ) < q := by linarith
    have hb : ⌊q⌋ < b := by exact_mod_cast lt_of_lt_of_le hlt h
    omega

theorem le_bankersRound (q : ℚ) (b : ℤ) (h : (b : ℚ) ≤ q) : b ≤ bankersRound q := by
  have hf : b ≤ ⌊q⌋ := Int.le_floor.mpr h
  unfold bankersRound
  split_ifs <;> omega

/-- `round2` maps `[1/10, 1]` into itself. -/
theorem round2_bounds (q : ℚ) (h1 : 1 / 10 ≤ q) (h2 : q ≤ 1) :
    1 / 10 ≤ round2 q ∧ round2 q ≤ 1 := by
  unfold round2
  have hlo : (10 : ℤ) ≤ bankersRound (q * 100) := by
    apply le_bankersRound; push_cast; linarith
  have hhi : bankersRound (q * 100) ≤ (100 : ℤ) := by
    apply bankersRound_le; push_cast; linarith
  have hlo' : (10 : ℚ) ≤ (bankersRound (q * 100) : ℚ) := by exact_mod_cast hlo
  have hhi' : ((bankersRound (q * 100) : ℚ)) ≤ 100 := by exact_mod_cast hhi
  constructor
  · rw [le_div_iff (by norm_num : (0:ℚ) < 100)]
    linarith
  · rw [div_le_one (by norm_num : (0:ℚ) < 100)]
    linarith

-- ========================================================================
-- Rate limiter (`src/voice/rate_limiter.py`, class RateLimiter)
-- ========================================================================

/-- One DynamoDB item of the rate-limit table (attributes `request_count`,
`window_start`, `ttl`; the other attributes are copies of the key and the
clock and carry no state). -/
structure RLEntry where
  request_count : ℕ
  window_start : ℤ
  ttl : ℤ
  deriving Repr, DecidableEq

/-- Outcome of `check_and_increment`: the `(True, remaining, reset_in)`
tuple, or the `RateLimitExceeded` exception carrying the reset time. -/
inductive RLOutcome where
  | allowed (remaining reset_in : ℤ)
  | rateLimited (reset_in : ℤ)
  deriving Repr, DecidableEq

/-- `RateLimiter.check_and_increment` for one `(session_id, request_type)`
key.  `st` is the stored item (`none` = no record), `now` the clock,
`dbFail` models a `ClientError` from DynamoDB (fail-open: no write).
Returns the stored item after the call and the outcome. -/
def checkAndIncrement (maxRequests : ℕ) (windowSeconds : ℤ) (now : ℤ)
    (dbFail : Bool) (st : Option RLEntry) : Option RLEntry × RLOutcome :=
  if dbFail then
    (st, .allowed ((maxRequests : ℤ) - 1) windowSeconds)
  else
    let ttlTime := now + windowSeconds + 300
    match st with
    | some item =>
      if now - item.window_start < windowSeconds then
        if maxRequests ≤ item.request_count then
          (some item, .rateLimited (windowSeconds - (now - item.window_start)))
        else
          let newCount := item.request_count + 1
          (some ⟨newCount, item.window_start, ttlTime⟩,
           .allowed ((maxRequests : ℤ) - newCount)
             (windowSeconds - (now - item.window_start)))
      else
        (some ⟨1, now, ttlTime⟩, .allowed ((maxRequests : ℤ) - 1) windowSeconds)
    | none =>
      (some ⟨1, now, ttlTime⟩, .allowed ((maxRequests : ℤ) - 1) windowSeconds)

/-- The `request_count` stored for the key (0 when no record exists). -/
def storedCount : Option RLEntry → ℕ
  | none => 0
  | some e => e.request_count

/-- A sequence of `check_and_increment` calls by a single writer; each call
is `(now, dbFail)`. -/
def runCalls (maxRequests : ℕ) (windowSeconds : ℤ) :
    List (ℤ × Bool) → Option RLEntry → Option RLEntry
  | [], st => st
  | c :: cs, st =>
    runCalls maxRequests windowSeconds cs
      (checkAndIncrement maxRequests windowSeconds c.1 c.2 st).1

theorem checkAndIncrement_count_le (maxRequests : ℕ) (windowSeconds now : ℤ)
    (dbFail : Bool) (st : Option RLEntry) (hmax : 1 ≤ maxRequests)
    (hst : storedCount st ≤ maxRequests) :
    storedCount (checkAndIncrement maxRequests windowSeconds now dbFail st).1 ≤
      maxRequests := by
  unfold checkAndIncrement
  cases hdb : dbFail with
  | true => simpa [storedCount] using hst
  | false =>
    cases st with
    | none => simp [storedCount]; omega
    | some item =>
      simp only [storedCount] at hst
      by_cases h1 : now - item.window_start < windowSeconds
      · by_cases h2 : maxRequests ≤ item.request_count
        · simp [h1, h2, storedCount]; omega
        · simp [h1, h2, storedCount]; omega
      · simp [h1, storedCount]; omega

/-- C3: for a single writer against one store with `max_per_window ≥ 1`,
every stored state keeps `request_count ≤ max_per_window`: inside a live
window the count is incremented only when strictly below the maximum, and
an expired or missing window restarts the count at 1. -/
theorem rateLimiter_count_invariant (maxRequests : ℕ) (windowSeconds : ℤ)
    (calls : List (ℤ × Bool)) (st : Option RLEntry)
    (hmax : 1 ≤ maxRequests) (hst : storedCount st ≤ maxRequests) :
    storedCount (runCalls maxRequests windowSeconds calls st) ≤ maxRequests := by
  induction calls generalizing st with
  | nil => simpa [runCalls] using hst
  | cons c cs ih =>
    exact ih _ (checkAndIncrement_count_le maxRequests windowSeconds c.1 c.2 st hmax hst)

/-- Witness for C3 at a concrete call sequence (seven calls in one window
against `max_per_window = 5`, starting from an empty store). -/
theorem rateLimiter_count_invariant_witness :
    1 ≤ 5 ∧ storedCount (none : Option RLEntry) ≤ 5 ∧
      storedCount (runCalls 5 3600
        [(0, false), (1, false), (2, false), (3, false),
         (4, false), (5, false), (6, false)] none) ≤ 5 :=
  ⟨by decide, by decide,
   rateLimiter_count_invariant 5 3600
     [(0, false), (1, false), (2, false), (3, false), (4, false), (5, false), (6, false)]
     none (by decide) (by decide)⟩

/-- C10: when `check_and_increment` fails with `rate_limited` (a stored
record exists, its window is still current, and its count has reached the
maximum), no write happens: the stored item is returned unchanged. -/
theorem rateLimited_no_write (maxRequests : ℕ) (windowSeconds now : ℤ)
    (item : RLEntry)
    (hwin : now - item.window_start < windowSeconds)
    (hcount : maxRequests ≤ item.request_count) :
    checkAndIncrement maxRequests windowSeconds now false (some item) =
      (some item, .rateLimited (windowSeconds - (now - item.window_start))) := by
  simp [checkAndIncrement, hwin, hcount]

/-- Witness for C10: a full window (count 5 of 5) at a concrete clock. -/
theorem rateLimited_no_write_witness :
    (100 : ℤ) - (⟨5, 0, 3900⟩ : RLEntry).window_start < 3600 ∧
      (5 : ℕ) ≤ (⟨5, 0, 3900⟩ : RLEntry).request_count ∧
      checkAndIncrement 5 3600 100 false (some ⟨5, 0, 3900⟩) =
        (some ⟨5, 0, 3900⟩, .rateLimited 3500) :=
  ⟨by decide, by decide, by
    have h := rateLimited_no_write 5 3600 100 ⟨5, 0, 3900⟩ (by decide) (by decide)
    simpa using h⟩

-- ========================================================================
-- Shared data model: query context, agent context, external environment
-- ========================================================================

/-- The optional `user_profile` sub-dictionary of the request context. -/
structure UserProfile where
  farm_size_ha : Option ℚ
  irrigation_available : Option Bool
  previous_crop : Option String
  budget : Option ℚ

/-- The `context` dictionary given to `orchestrate_query`. -/
structure QueryContext where
  pincode : Option String
  district : Option String
  state : Option String
  language : Option String
  previous_queries : List String
  user_profile : Option UserProfile

/-- The context produced by `_prepare_agent_context` and passed to every
agent. -/
structure AgentContext where
  pincode : Option String
  district : Option String
  state : Option String
  language : String
  farm_size_ha : ℚ
  irrigation_available : Bool
  previous_crop : Option String
  budget : Option ℚ

/-- `_prepare_agent_context` (orchestrator.py). -/
def prepareAgentContext (ctx : QueryContext) : AgentContext :=
  { pincode := ctx.pincode, district := ctx.district, state := ctx.state,
    language := ctx.language.getD "en",
    farm_size_ha := (ctx.user_profile.bind UserProfile.farm_size_ha).getD 1,
    irrigation_available :=
      (ctx.user_profile.bind UserProfile.irrigation_available).getD true,
    previous_crop := ctx.user_profile.bind UserProfile.previous_crop,
    budget := ctx.user_profile.bind UserProfile.budget }

/-- A learned regional soil profile as returned by the learning store
(`learning_db.get_soil_profile`); every key is optional. -/
structure LearnedSoilProfile where
  type : Option String
  ph : Option ℚ
  organic_matter : Option ℚ
  confidence : Option ℚ

/-- The parsed result of `_fetch_live_weather` (weather_agent.py) when the
Open-Meteo call succeeds. -/
structure LiveWeather where
  current_temp : ℚ
  current_humidity : ℚ
  current_precipitation : ℚ
  temp_min : ℚ
  temp_max : ℚ
  rainfall : ℚ
  humidity : ℚ
  forecast_days : ℕ

/-- All external effects consumed by the agents, made explicit inputs:
network services, the learning store, the wall clock, and the numeric
captures of the `re` patterns applied to the query text.  A `...Fails`
flag models an exception raised by an external call inside the agent's
`try:` block (e.g. the retrieval service, which propagates network
errors), triggering the agent's `except` branch. -/
structure ExternEnv where
  soilFails : Bool
  weatherFails : Bool
  cropFails : Bool
  learnedSoil : String → Option LearnedSoilProfile
  liveWeather : Option LiveWeather
  coordSource : String
  currentMonth : ℕ
  phCapture : Option ℚ
  npkTriple : Option (ℚ × ℚ × ℚ)
  nCapture : Option ℚ
  pCapture : Option ℚ
  kCapture : Option ℚ
  omCapture : Option ℚ
  microValues : List (String × ℚ)

-- ========================================================================
-- Soil agent (`src/agents/soil_agent.py`)
-- ========================================================================

/-- One row of `REGIONAL_SOIL_PROFILES`. -/
structure RegionalSoilProfile where
  type : String
  ph : ℚ
  fertility : String
  organic_matter : ℚ

/-- `REGIONAL_SOIL_PROFILES` (soil_agent.py). -/
def REGIONAL_SOIL_PROFILES : List (String × RegionalSoilProfile) :=
  [("punjab", ⟨"loam", 7.8, "high", 0.6⟩),
   ("maharashtra", ⟨"black_cotton", 7.5, "medium", 0.5⟩),
   ("rajasthan", ⟨"sandy", 8.2, "low", 0.3⟩),
   ("kerala", ⟨"laterite", 5.5, "medium", 0.7⟩),
   ("west_bengal", ⟨"alluvial", 6.8, "high", 0.8⟩),
   ("tamil_nadu", ⟨"red", 6.5, "medium", 0.5⟩),
   ("karnataka", ⟨"red", 6.8, "medium", 0.5⟩),
   ("uttar_pradesh", ⟨"alluvial", 7.2, "high", 0.6⟩),
   ("madhya_pradesh", ⟨"black_cotton", 7.6, "medium", 0.5⟩),
   ("gujarat", ⟨"black_cotton", 7.8, "medium", 0.4⟩),
   ("default", ⟨"loam", 7.0, "medium", 0.5⟩)]

/-- One row of `SOIL_CHARACTERISTICS`. -/
structure SoilCharacter where
  drainage : String
  water_retention : String
  workability : String
  nutrient_retention : String

/-- `SOIL_CHARACTERISTICS` (soil_agent.py). -/
def SOIL_CHARACTERISTICS : List (String × SoilCharacter) :=
  [("clay", ⟨"poor", "high", "difficult", "high"⟩),
   ("sandy", ⟨"excellent", "low", "easy", "low"⟩),
   ("loam", ⟨"good", "moderate", "easy", "good"⟩),
   ("silt", ⟨"moderate", "high", "moderate", "good"⟩),
   ("peat", ⟨"poor", "very_high", "moderate", "high"⟩),
   ("chalk", ⟨"excellent", "low", "moderate", "low"⟩),
   ("black_cotton", ⟨"poor", "high", "difficult", "high"⟩),
   ("red", ⟨"good", "moderate", "moderate", "moderate"⟩),
   ("laterite", ⟨"excellent", "low", "easy", "low"⟩),
   ("alluvial", ⟨"good", "moderate", "easy", "high"⟩)]

/-- The soil-type synonym table of `_extract_soil_parameters`, in source
order (first match wins). -/
def soilTypeKeywords : List (String × List String) :=
  [("clay", ["clay", "clayey", "heavy soil"]),
   ("sandy", ["sandy", "sand", "light soil"]),
   ("loam", ["loam", "loamy"]),
   ("silt", ["silt", "silty"]),
   ("peat", ["peat", "peaty", "organic soil"]),
   ("chalk", ["chalk", "chalky", "calcareous"]),
   ("black_cotton", ["black cotton", "black soil", "regur", "vertisol"]),
   ("red", ["red soil", "red earth", "alfisol"]),
   ("laterite", ["laterite", "lateritic"]),
   ("alluvial", ["alluvial", "river soil", "doab"])]

/-- The `type_scores` table of `_calculate_soil_health`. -/
def typeScores : List (String × ℤ) :=
  [("loam", 3), ("alluvial", 3), ("black_cotton", 2),
   ("silt", 2), ("clay", 1), ("red", 1),
   ("sandy", 0), ("laterite", 0), ("chalk", -1),
   ("peat", 1), ("unknown", 0)]

/-- The location-derived soil defaults assembled by `_get_location_context`
(soil_agent.py); absent dictionary keys are `none`. -/
structure SoilLocationData where
  type : Option String
  ph : Option ℚ
  organic_matter : Option ℚ
  fallback_level : String
  confidence : ℚ

/-- `_get_location_context` (soil_agent.py): learned district profile,
then learned state profile, then the static regional table, then the
default profile. -/
def getLocationContextSoil (ctx : AgentContext)
    (learned : String → Option LearnedSoilProfile) : SoilLocationData :=
  let state := underscoreSpaces (lowerStr (ctx.state.getD ""))
  let district := underscoreSpaces (lowerStr (ctx.district.getD ""))
  match (if district ≠ "" then learned district else none) with
  | some p =>
    { type := p.type, ph := p.ph, organic_matter := p.organic_matter,
      fallback_level := "learned_district", confidence := p.confidence.getD 0.75 }
  | none =>
    match (if state ≠ "" then learned state else none) with
    | some p =>
      { type := p.type, ph := p.ph, organic_matter := p.organic_matter,
        fallback_level := "learned_state", confidence := p.confidence.getD 0.7 }
    | none =>
      match REGIONAL_SOIL_PROFILES.lookup state with
      | some prof =>
        { type := some prof.type, ph := some prof.ph,
          organic_matter := some prof.organic_matter,
          fallback_level := "state", confidence := 0.6 }
      | none =>
        { type := some "loam", ph := some 7.0, organic_matter := some 0.5,
          fallback_level := "default", confidence := 0.3 }

/-- `_extract_npk_values` (soil_agent.py).  The numeric captures of the
`re` patterns are oracle inputs; the composite `N-P-K` pattern wins, else
the per-nutrient captures, then the qualitative keyword floors apply. -/
def extractNpkValues (ql : String) (env : ExternEnv) : ℚ × ℚ × ℚ :=
  match env.npkTriple with
  | some t => t
  | none =>
    let n0 := env.nCapture.getD 0
    let p0 := env.pCapture.getD 0
    let k0 := env.kCapture.getD 0
    let n1 :=
      if strHasSub ql "nitrogen deficient" || strHasSub ql "low nitrogen" then max n0 10
      else if strHasSub ql "high nitrogen" || strHasSub ql "rich nitrogen" then max n0 50
      else n0
    (n1, p0, k0)

/-- The record produced by `_extract_soil_parameters`. -/
structure SoilParams where
  type : String
  ph : ℚ
  nitrogen : ℚ
  phosphorus : ℚ
  potassium : ℚ
  organic_matter : ℚ
  data_sources : List String
  data_freshness : String
  location_confidence : ℚ

/-- `_extract_soil_parameters` (soil_agent.py).  The numeric captures of
the pH / organic-matter regex families are oracle inputs (`env.phCapture`
holds the first capture of the pH pattern family, validated against
`[0, 14]` like the source; `env.omCapture` the organic-matter capture). -/
def extractSoilParameters (query : String) (env : ExternEnv)
    (loc : SoilLocationData) : SoilParams :=
  let ql := lowerStr query
  let scanned := soilTypeKeywords.find? fun p => p.2.any fun kw => strHasSub ql kw
  let soilType0 := loc.type.getD "unknown"
  let st := match scanned with
    | some p => p.1
    | none => soilType0
  let ds1 : List String := match scanned with
    | some _ => ["user_query"]
    | none => []
  let ds2 := if "user_query" ∉ ds1 ∧ st ≠ "unknown" then ds1 ++ ["location_profile"] else ds1
  let ph0 := loc.ph.getD 7.0
  let phStep : ℚ × List String :=
    match env.phCapture with
    | some v => if 0 ≤ v ∧ v ≤ 14 then (v, ds2 ++ ["user_query_ph"]) else (ph0, ds2)
    | none => (ph0, ds2)
  let ph := phStep.1
  let ds3 := phStep.2
  let npk := extractNpkValues ql env
  let ds4 := if 0 < npk.1 ∨ 0 < npk.2.1 ∨ 0 < npk.2.2 then ds3 ++ ["user_query_npk"] else ds3
  let om0 := loc.organic_matter.getD 0.5
  let omStep : ℚ × List String :=
    match env.omCapture with
    | some v => (if 10 < v then v / 100 else v, ds4 ++ ["user_query_om"])
    | none => (om0, ds4)
  let ds5 := omStep.2
  let om2 :=
    if strHasSub ql "rich organic" || strHasSub ql "high organic" then max omStep.1 0.8
    else if strHasSub ql "low organic" || strHasSub ql "poor organic" then min omStep.1 0.3
    else omStep.1
  let freshness :=
    if "user_query_ph" ∈ ds5 ∨ "user_query_npk" ∈ ds5 then "user_provided" else "estimated"
  { type := st, ph := ph, nitrogen := npk.1, phosphorus := npk.2.1,
    potassium := npk.2.2, organic_matter := om2,
    data_sources := if ds5 = [] then ["location_profile"] else ds5,
    data_freshness := freshness, location_confidence := loc.confidence }

/-- `_calculate_soil_health` (soil_agent.py).  The source updates `score`
and appends to `confidence_factors` inside the same branches; here the
score chain and the factor list share the branch conditions verbatim. -/
def calculateSoilHealth (p : SoilParams) : ℤ × ℚ :=
  let st := lowerStr p.type
  let score1 : ℤ := 5 + (typeScores.lookup st).getD 0
  let score2 :=
    if 6 ≤ p.ph ∧ p.ph ≤ 7.5 then score1 + 2
    else if 5.5 ≤ p.ph ∧ p.ph ≤ 8 then score1 + 1
    else if p.ph < 5 ∨ 8.5 < p.ph then score1 - 2
    else score1
  let score3 :=
    if 0.6 ≤ p.organic_matter then score2 + 1
    else if p.organic_matter < 0.3 then score2 - 1
    else score2
  let score4 :=
    if 30 < p.nitrogen ∧ 20 < p.phosphorus ∧ 20 < p.potassium then score3 + 1
    else score3
  let cfs : List ℚ :=
    [if st ≠ "unknown" then (0.8 : ℚ) else 0.4] ++
    [if 6 ≤ p.ph ∧ p.ph ≤ 7.5 then (0.9 : ℚ)
     else if 5.5 ≤ p.ph ∧ p.ph ≤ 8 then 0.75
     else if p.ph < 5 ∨ 8.5 < p.ph then 0.8
     else 0.6] ++
    (if 0.6 ≤ p.organic_matter then [(0.7 : ℚ)]
     else if p.organic_matter < 0.3 then [(0.6 : ℚ)]
     else []) ++
    (if 30 < p.nitrogen ∧ 20 < p.phosphorus ∧ 20 < p.potassium then [(0.85 : ℚ)]
     else if 0 < p.nitrogen ∨ 0 < p.phosphorus ∨ 0 < p.potassium then [(0.7 : ℚ)]
     else [])
  let score := max 1 (min 10 score4)
  let confidence := if cfs.length = 0 then (0.5 : ℚ) else cfs.sum / (cfs.length : ℚ)
  (score, round2 confidence)

/-- `_identify_constraints` (soil_agent.py). -/
def identifyConstraints (p : SoilParams) : List String :=
  let st := lowerStr p.type
  let c1 : List String :=
    if st = "clay" then ["Poor drainage - risk of waterlogging", "Difficult to work when wet"]
    else if st = "sandy" then
      ["Low nutrient retention", "Requires frequent irrigation", "Low water holding capacity"]
    else if st = "laterite" then ["Low nutrient retention", "May be acidic", "Low organic matter"]
    else if st = "chalk" then
      ["Alkaline pH limits nutrient availability", "May cause iron chlorosis"]
    else if st = "peat" then ["Poor drainage", "May be acidic", "Slow to warm in spring"]
    else []
  let c2 := c1 ++
    (if p.ph < 5.5 then ["Acidic soil (pH " ++ fmtQ p.ph ++ ") - may require liming"]
     else if 8 < p.ph then
       ["Alkaline soil (pH " ++ fmtQ p.ph ++ ") - may cause micronutrient deficiency"]
     else [])
  let c3 := c2 ++
    (if p.organic_matter < 0.3 then ["Low organic matter - add compost or green manure"] else [])
  let c4 := c3 ++ (if p.nitrogen < 20 then ["Low nitrogen - consider nitrogen fertilization"] else [])
  let c5 := c4 ++
    (if p.phosphorus < 15 then ["Low phosphorus - consider phosphorus supplementation"] else [])
  let c6 := c5 ++ (if p.potassium < 15 then ["Low potassium - consider potash application"] else [])
  if c6 = [] then ["No major constraints identified"] else c6

/-- `_generate_recommendations` (soil_agent.py). -/
def generateRecommendations (p : SoilParams) : List String :=
  let st := lowerStr p.type
  let r1 : List String :=
    if st = "clay" then
      ["Add organic matter to improve drainage", "Use raised beds for better root development",
       "Avoid working soil when wet"]
    else if st = "sandy" then
      ["Add organic matter to improve water retention", "Use mulching to reduce water loss",
       "Apply fertilizers in split doses"]
    else if st = "loam" then
      ["Maintain organic matter levels with regular composting",
       "Practice crop rotation for soil health"]
    else if st = "laterite" then
      ["Add lime to correct acidity", "Regular organic matter application",
       "Micronutrient supplementation recommended"]
    else if st = "black_cotton" then
      ["Ensure proper drainage", "Add gypsum to improve soil structure",
       "Avoid waterlogging during monsoon"]
    else ["Regular soil testing recommended"]
  let r2 := r1 ++
    (if p.ph < 5.5 then ["Apply agricultural lime to raise pH"]
     else if 8 < p.ph then ["Apply eleite sulfur or organic acids to lower pH"]
     else [])
  let r3 := r2 ++
    (if p.organic_matter < 0.4 then
      ["Add farmyard manure or compost (10-15 tons/ha)",
       "Consider green manuring with dhaincha or sunhemp"]
     else [])
  let r4 := r3 ++ (if p.nitrogen < 20 then ["Apply urea or ammonium sulfate for nitrogen"] else [])
  let r5 := r4 ++ (if p.phosphorus < 15 then ["Apply DAP or single super phosphate"] else [])
  let r6 := r5 ++ (if p.potassium < 15 then ["Apply muriate of potash (MOP)"] else [])
  if r6 = [] then ["Soil conditions are good - maintain current practices"] else r6

/-- A micronutrient entry: a numeric value (ppm) or a keyword-indicated
deficiency. -/
inductive MicroInfo where
  | value (v : ℚ)
  | deficient
  deriving Repr, DecidableEq

/-- `_extract_micronutrients` (soil_agent.py); the regex numeric captures
are oracle inputs, the deficiency keywords are scanned in the query. -/
def extractMicronutrients (query : String) (env : ExternEnv) :
    List (String × MicroInfo) :=
  let ql := lowerStr query
  ["zinc", "iron", "manganese", "copper", "boron", "sulfur"].filterMap fun nutrient =>
    match env.microValues.lookup nutrient with
    | some v => some (nutrient, .value v)
    | none =>
      if strHasSub ql (nutrient ++ " deficien") || strHasSub ql ("low " ++ nutrient) then
        some (nutrient, .deficient)
      else none

/-- NPK triple of a soil result. -/
structure NpkLevels where
  nitrogen : ℚ
  phosphorus : ℚ
  potassium : ℚ
  deriving Repr, DecidableEq

/-- The location snapshot included in agent results. -/
structure AgentLocationContext where
  pincode : Option String
  district : Option String
  state : Option String
  fallback_level : String

/-- The response dictionary of `analyze_soil`. -/
structure SoilResult where
  error : Option String
  soil_type : String
  ph_level : ℚ
  npk_levels : NpkLevels
  organic_matter_percent : ℚ
  micronutrients : List (String × MicroInfo)
  soil_characteristics : SoilCharacter
  health_score : ℤ
  health_confidence : ℚ
  constraints : List String
  recommendations : List String
  data_sources : List String
  data_freshness : String
  location_context : AgentLocationContext

/-- The `except` branch of `analyze_soil`: a default-filled result.  The
exception text `str(e)` is modelled as a fixed non-empty message. -/
def soilErrorResult : SoilResult :=
  { error := some "unexpected_error",
    soil_type := "unknown", ph_level := 7.0,
    npk_levels := ⟨0, 0, 0⟩, organic_matter_percent := 0,
    micronutrients := [],
    soil_characteristics := ⟨"good", "moderate", "easy", "good"⟩,
    health_score := 5, health_confidence := 0.1,
    constraints := ["Analysis failed - using default values"],
    recommendations := ["Get professional soil test", "Consult local agricultural expert"],
    data_sources := ["default_fallback"], data_freshness := "unknown",
    location_context := ⟨none, none, none, "error"⟩ }

/-- `analyze_soil` (soil_agent.py).  The self-learning store write at the
end of the happy path is a fire-and-forget side effect with no influence
on the returned value and is not modelled. -/
def analyzeSoil (query : String) (ctx : AgentContext) (env : ExternEnv) : SoilResult :=
  if env.soilFails then soilErrorResult
  else
    let loc := getLocationContextSoil ctx env.learnedSoil
    let sd := extractSoilParameters query env loc
    let health := calculateSoilHealth sd
    { error := none,
      soil_type := sd.type, ph_level := sd.ph,
      npk_levels := ⟨sd.nitrogen, sd.phosphorus, sd.potassium⟩,
      organic_matter_percent := sd.organic_matter,
      micronutrients := extractMicronutrients query env,
      soil_characteristics :=
        (SOIL_CHARACTERISTICS.lookup sd.type).getD ⟨"good", "moderate", "easy", "good"⟩,
      health_score := health.1, health_confidence := health.2,
      constraints := identifyConstraints sd,
      recommendations := generateRecommendations sd,
      data_sources := sd.data_sources, data_freshness := sd.data_freshness,
      location_context := ⟨ctx.pincode, ctx.district, ctx.state, loc.fallback_level⟩ }

-- Specification-side soil-health score (claim C5's wording) --------------

/-- Soil-type adjustment exactly as the specification tabulates it. -/
def specSoilTypeAdj (t : String) : ℤ :=
  if t = "loam" ∨ t = "alluvial" then 3
  else if t = "black_cotton" ∨ t = "silt" then 2
  else if t = "clay" ∨ t = "red" then 1
  else if t = "sandy" ∨ t = "laterite" then 0
  else if t = "chalk" then -1
  else if t = "peat" then 1
  else 0

/-- pH adjustment as the specification words it. -/
def specPhAdj (ph : ℚ) : ℤ :=
  if 6 ≤ ph ∧ ph ≤ 7.5 then 2
  else if 5.5 ≤ ph ∧ ph ≤ 8 then 1
  else if ph < 5 ∨ 8.5 < ph then -2
  else 0

/-- Organic-matter adjustment as the specification words it. -/
def specOmAdj (om : ℚ) : ℤ :=
  if 0.6 ≤ om then 1 else if om < 0.3 then -1 else 0

/-- NPK adjustment as the specification words it. -/
def specNpkAdj (n p k : ℚ) : ℤ :=
  if 30 < n ∧ 20 < p ∧ 20 < k then 1 else 0

/-- The specification's soil-health score: base 5 plus the four
independent adjustments, clamped to `[1, 10]`. -/
def specSoilHealthScore (p : SoilParams) : ℤ :=
  max 1 (min 10
    (5 + specSoilTypeAdj p.type + specPhAdj p.ph + specOmAdj p.organic_matter +
      specNpkAdj p.nitrogen p.phosphorus p.potassium))

/-- C5: for every extracted soil-parameter record, the soil health score
equals the base value 5 plus the soil-type adjustment, the pH adjustment,
the organic-matter adjustment and the NPK adjustment, clamped to [1, 10]. -/
theorem soilHealthScore_eq_spec (p : SoilParams)
    (ht : p.type ∈ ["clay", "sandy", "loam", "silt", "peat", "chalk",
      "black_cotton", "red", "laterite", "alluvial", "unknown"]) :
    (calculateSoilHealth p).1 = specSoilHealthScore p := by
  have base : (calculateSoilHealth p).1 =
      max 1 (min 10 (5 + (typeScores.lookup (lowerStr p.type)).getD 0 +
        specPhAdj p.ph + specOmAdj p.organic_matter +
        specNpkAdj p.nitrogen p.phosphorus p.potassium)) := by
    simp only [calculateSoilHealth, specPhAdj, specOmAdj, specNpkAdj]
    split_ifs <;> (try simp only [sup_eq_max, inf_eq_min]) <;> omega
  have hadj : (typeScores.lookup (lowerStr p.type)).getD 0 = specSoilTypeAdj p.type := by
    simp only [List.mem_cons, List.mem_singleton, List.not_mem_nil, or_false] at ht
    rcases ht with h|h|h|h|h|h|h|h|h|h|h <;> rw [h] <;> decide
  rw [base, hadj, specSoilHealthScore]

/-- Witness for C5: a concrete extracted record (clay, pH 6.5, organic
matter 0.5, NPK 0). -/
theorem soilHealthScore_eq_spec_witness :
    (⟨"clay", 6.5, 0, 0, 0, 0.5, ["user_query"], "estimated", 0.6⟩ : SoilParams).type ∈
      ["clay", "sandy", "loam", "silt", "peat", "chalk",
       "black_cotton", "red", "laterite", "alluvial", "unknown"] ∧
    (calculateSoilHealth ⟨"clay", 6.5, 0, 0, 0, 0.5, ["user_query"], "estimated", 0.6⟩).1 =
      specSoilHealthScore ⟨"clay", 6.5, 0, 0, 0, 0.5, ["user_query"], "estimated", 0.6⟩ :=
  ⟨by decide,
   soilHealthScore_eq_spec ⟨"clay", 6.5, 0, 0, 0, 0.5, ["user_query"], "estimated", 0.6⟩
     (by decide)⟩

-- ========================================================================
-- Weather agent (`src/agents/weather_agent.py`)
-- ========================================================================

/-- One `(season → …)` row of `REGIONAL_WEATHER_PROFILES`. -/
structure RegionalSeasonProfile where
  temp_min : ℚ
  temp_max : ℚ
  rainfall : ℚ
  humidity : ℚ
  frost_risk : String

/-- One region of `REGIONAL_WEATHER_PROFILES` (the three seasons). -/
structure RegionalWeatherProfile where
  kharif : RegionalSeasonProfile
  rabi : RegionalSeasonProfile
  zaid : RegionalSeasonProfile

/-- The `default` row of `REGIONAL_WEATHER_PROFILES`. -/
def defaultRegionalWeather : RegionalWeatherProfile :=
  ⟨⟨22, 35, 800, 75, "none"⟩, ⟨10, 25, 50, 45, "low"⟩, ⟨25, 40, 200, 55, "none"⟩⟩

/-- `REGIONAL_WEATHER_PROFILES` (weather_agent.py). -/
def REGIONAL_WEATHER_PROFILES : List (String × RegionalWeatherProfile) :=
  [("punjab", ⟨⟨25, 38, 650, 70, "none"⟩, ⟨5, 22, 80, 55, "moderate"⟩, ⟨22, 42, 50, 45, "none"⟩⟩),
   ("maharashtra", ⟨⟨22, 32, 1200, 80, "none"⟩, ⟨12, 28, 50, 45, "low"⟩, ⟨20, 38, 100, 50, "none"⟩⟩),
   ("rajasthan", ⟨⟨26, 40, 350, 55, "none"⟩, ⟨8, 25, 20, 35, "moderate"⟩, ⟨25, 45, 30, 30, "none"⟩⟩),
   ("kerala", ⟨⟨23, 30, 2500, 90, "none"⟩, ⟨22, 32, 200, 65, "none"⟩, ⟨25, 35, 400, 75, "none"⟩⟩),
   ("west_bengal", ⟨⟨24, 34, 1400, 85, "none"⟩, ⟨10, 25, 50, 50, "low"⟩, ⟨22, 38, 200, 70, "none"⟩⟩),
   ("uttar_pradesh", ⟨⟨25, 36, 900, 75, "none"⟩, ⟨6, 22, 60, 50, "moderate"⟩, ⟨22, 42, 80, 45, "none"⟩⟩),
   ("tamil_nadu", ⟨⟨24, 35, 400, 70, "none"⟩, ⟨20, 30, 600, 75, "none"⟩, ⟨26, 38, 100, 60, "none"⟩⟩),
   ("karnataka", ⟨⟨20, 30, 900, 80, "none"⟩, ⟨15, 28, 100, 50, "low"⟩, ⟨22, 36, 150, 55, "none"⟩⟩),
   ("madhya_pradesh", ⟨⟨24, 35, 1100, 75, "none"⟩, ⟨8, 26, 40, 45, "moderate"⟩, ⟨24, 42, 60, 40, "none"⟩⟩),
   ("gujarat", ⟨⟨25, 35, 700, 75, "none"⟩, ⟨12, 28, 30, 40, "low"⟩, ⟨26, 42, 50, 45, "none"⟩⟩),
   ("default", defaultRegionalWeather)]

/-- `regional_profile.get(season, regional_profile.get("kharif", {}))`. -/
def seasonProfileOf (p : RegionalWeatherProfile) (season : String) : RegionalSeasonProfile :=
  if season = "kharif" then p.kharif
  else if season = "rabi" then p.rabi
  else if season = "zaid" then p.zaid
  else p.kharif

/-- One row of `CROP_WEATHER_REQUIREMENTS`. -/
structure CropWeatherReq where
  temp_min : ℚ
  temp_max : ℚ
  rainfall_min : ℚ
  humidity_min : ℚ
  frost_tolerant : Bool

/-- `CROP_WEATHER_REQUIREMENTS` (weather_agent.py). -/
def CROP_WEATHER_REQUIREMENTS : List (String × CropWeatherReq) :=
  [("rice", ⟨20, 35, 1000, 70, false⟩),
   ("wheat", ⟨10, 25, 50, 40, true⟩),
   ("maize", ⟨18, 32, 500, 50, false⟩),
   ("cotton", ⟨20, 35, 600, 60, false⟩),
   ("sugarcane", ⟨20, 35, 1200, 70, false⟩),
   ("soybean", ⟨18, 30, 500, 60, false⟩),
   ("groundnut", ⟨20, 32, 400, 50, false⟩),
   ("chickpea", ⟨10, 25, 40, 35, true⟩),
   ("mustard", ⟨10, 25, 30, 40, true⟩),
   ("barley", ⟨8, 22, 40, 35, true⟩),
   ("millet", ⟨20, 38, 300, 40, false⟩),
   ("sorghum", ⟨20, 38, 350, 45, false⟩),
   ("potato", ⟨15, 25, 100, 60, false⟩),
   ("onion", ⟨15, 30, 50, 50, false⟩)]

/-- The season-keyword table of `_extract_season_info`, in source order. -/
def seasonKeywords : List (String × List String) :=
  [("kharif", ["kharif", "monsoon", "rainy season", "june", "july", "august", "september"]),
   ("rabi", ["rabi", "winter", "cold season", "november", "december", "january", "february"]),
   ("zaid", ["zaid", "summer", "hot season", "march", "april", "may"])]

/-- Result of `_extract_season_info`. -/
structure SeasonInfo where
  season : String
  location : String
  source : String

/-- `_extract_season_info` (weather_agent.py); the current month is an
oracle input (the wall clock). -/
def extractSeasonInfo (query : String) (ctx : AgentContext) (currentMonth : ℕ) : SeasonInfo :=
  let ql := lowerStr query
  let fromQuery := seasonKeywords.find? fun p => p.2.any fun kw => strHasSub ql kw
  let season :=
    match fromQuery with
    | some p => p.1
    | none =>
      if currentMonth ∈ [6, 7, 8, 9, 10] then "kharif"
      else if currentMonth ∈ [11, 12, 1, 2, 3] then "rabi"
      else "zaid"
  let location :=
    let d := ctx.district.getD ""
    if d ≠ "" then d
    else
      let s := ctx.state.getD ""
      if s ≠ "" then s else "default"
  { season := season, location := location,
    source :=
      if seasonKeywords.any (fun p => p.2.any fun kw => strHasSub ql kw) then "query"
      else "date_inferred" }

/-- Result of the weather agent's `_get_location_context`. -/
structure WeatherLocationData where
  region : String
  fallback_level : String
  confidence : ℚ

/-- `_get_location_context` (weather_agent.py). -/
def getLocationContextWeather (ctx : AgentContext) : WeatherLocationData :=
  let state := underscoreSpaces (lowerStr (ctx.state.getD ""))
  if (REGIONAL_WEATHER_PROFILES.lookup state).isSome then
    { region := state, fallback_level := "state", confidence := 0.6 }
  else
    { region := "default", fallback_level := "default", confidence := 0.3 }

/-- The dictionary assembled by `_get_weather_data`. -/
structure WeatherData where
  temp_min : ℚ
  temp_max : ℚ
  rainfall : ℚ
  humidity : ℚ
  frost_risk : String
  season : String
  region : String
  data_sources : List String
  data_freshness : String
  optimal_temp_range : String
  rainfall_pattern : String

/-- `_get_weather_data` (weather_agent.py): adopt the live fields when the
Open-Meteo fetch succeeded, else the regional/seasonal historical profile;
then derive `optimal_temp_range` and `rainfall_pattern`. -/
def getWeatherData (seasonData : SeasonInfo) (loc : WeatherLocationData)
    (live : Option LiveWeather) (coordSource : String) : WeatherData :=
  let season := seasonData.season
  let region := loc.region
  let regionalProfile := (REGIONAL_WEATHER_PROFILES.lookup region).getD defaultRegionalWeather
  let seasonProfile := seasonProfileOf regionalProfile season
  let base : WeatherData :=
    match live with
    | some lw =>
      { temp_min := lw.temp_min, temp_max := lw.temp_max,
        rainfall := lw.rainfall, humidity := lw.humidity,
        frost_risk := if lw.temp_min < 5 then "low" else "none",
        season := season, region := region,
        data_sources := ["open_meteo_live", coordSource, region ++ "_profile"],
        data_freshness := "live",
        optimal_temp_range := "", rainfall_pattern := "" }
    | none =>
      { temp_min := seasonProfile.temp_min, temp_max := seasonProfile.temp_max,
        rainfall := seasonProfile.rainfall, humidity := seasonProfile.humidity,
        frost_risk := seasonProfile.frost_risk,
        season := season, region := region,
        data_sources := ["historical_average", region ++ "_profile"],
        data_freshness := "historical",
        optimal_temp_range := "", rainfall_pattern := "" }
  { base with
    optimal_temp_range := fmtQ (base.temp_min + 2) ++ "-" ++ fmtQ (base.temp_max - 5) ++ "°C",
    rainfall_pattern :=
      if 1500 < base.rainfall then "very_heavy"
      else if 800 < base.rainfall then "heavy"
      else if 400 < base.rainfall then "moderate"
      else if 100 < base.rainfall then "light"
      else "scanty" }

/-- `_calculate_suitability` (weather_agent.py).  The source updates
`score` and appends to `confidence_factors` in the same branches; the two
chains below share the branch conditions verbatim. -/
def calculateSuitability (w : WeatherData) : ℤ × ℚ :=
  let score1 : ℤ := 7
  let score2 :=
    if 18 ≤ w.temp_min ∧ w.temp_max ≤ 35 then score1 + 2
    else if 15 ≤ w.temp_min ∧ w.temp_max ≤ 38 then score1 + 1
    else if w.temp_min < 10 ∨ 42 < w.temp_max then score1 - 3
    else score1
  let score3 :=
    if w.season = "kharif" then
      if 600 ≤ w.rainfall ∧ w.rainfall ≤ 1200 then score2 + 1
      else if 2000 < w.rainfall then score2 - 2
      else if w.rainfall < 400 then score2 - 1
      else score2
    else if w.season = "rabi" then
      if 30 ≤ w.rainfall ∧ w.rainfall ≤ 150 then score2 + 1
      else if 300 < w.rainfall then score2 - 1
      else score2
    else score2
  let score4 :=
    if 50 ≤ w.humidity ∧ w.humidity ≤ 75 then score3 + 1
    else if 85 < w.humidity then score3 - 1
    else score3
  let score5 :=
    if w.frost_risk = "high" then score4 - 2
    else if w.frost_risk = "moderate" then score4 - 1
    else score4
  let cfs : List ℚ :=
    [if 18 ≤ w.temp_min ∧ w.temp_max ≤ 35 then (0.85 : ℚ)
     else if 15 ≤ w.temp_min ∧ w.temp_max ≤ 38 then 0.7
     else if w.temp_min < 10 ∨ 42 < w.temp_max then 0.8
     else 0.6] ++
    (if w.season = "kharif" then
      if 600 ≤ w.rainfall ∧ w.rainfall ≤ 1200 then [(0.8 : ℚ)]
      else if 2000 < w.rainfall then [(0.75 : ℚ)]
      else if w.rainfall < 400 then [(0.7 : ℚ)]
      else []
     else if w.season = "rabi" then
      if 30 ≤ w.rainfall ∧ w.rainfall ≤ 150 then [(0.8 : ℚ)]
      else if 300 < w.rainfall then [(0.7 : ℚ)]
      else []
     else []) ++
    (if 50 ≤ w.humidity ∧ w.humidity ≤ 75 then [(0.75 : ℚ)]
     else if 85 < w.humidity then [(0.7 : ℚ)]
     else []) ++
    (if w.frost_risk = "high" then [(0.8 : ℚ)]
     else if w.frost_risk = "moderate" then [(0.75 : ℚ)]
     else [])
  let confidence := if cfs.length = 0 then (0.5 : ℚ) else cfs.sum / (cfs.length : ℚ)
  (max 1 (min 10 score5), round2 confidence)

/-- A `{level, details}` risk channel. -/
structure RiskDetail where
  level : String
  details : String

/-- The dictionary built by `_assess_comprehensive_risks`. -/
structure RiskAssessment where
  frost : RiskDetail
  drought : RiskDetail
  flood : RiskDetail
  heat_stress : RiskDetail
  disease_pressure : RiskDetail
  summary : List String

/-- `_assess_comprehensive_risks` (weather_agent.py). -/
def assessComprehensiveRisks (w : WeatherData) : RiskAssessment :=
  let frost : RiskDetail × List String :=
    if w.frost_risk = "high" ∨ w.temp_min < 5 then
      (⟨"high", "Significant frost damage risk for sensitive crops"⟩,
       ["[HIGH] Frost risk - protect sensitive crops with covers"])
    else if w.frost_risk = "moderate" ∨ w.temp_min < 10 then
      (⟨"moderate", "Possible frost in early morning"⟩,
       ["[MODERATE] Frost possible - avoid frost-sensitive varieties"])
    else (⟨"none", ""⟩, [])
  let heat : RiskDetail × List String :=
    if 42 < w.temp_max then
      (⟨"high", "Severe heat stress likely"⟩,
       ["[HIGH] Heat stress - ensure irrigation, consider shade nets"])
    else if 38 < w.temp_max then
      (⟨"moderate", "Heat stress possible during peak hours"⟩,
       ["[MODERATE] Heat stress risk - water crops during cooler hours"])
    else (⟨"none", ""⟩, [])
  let drought : RiskDetail × List String :=
    if w.season = "kharif" ∧ w.rainfall < 400 then
      (⟨"high", "Insufficient monsoon rainfall expected"⟩,
       ["[HIGH] Drought risk - plan irrigation backup"])
    else if w.rainfall < 200 then
      (⟨"moderate", "Below average rainfall expected"⟩,
       ["[MODERATE] Low rainfall - schedule regular irrigation"])
    else (⟨"none", ""⟩, [])
  let flood : RiskDetail × List String :=
    if 2000 < w.rainfall then
      (⟨"high", "Very heavy rainfall may cause flooding"⟩,
       ["[HIGH] Flooding risk - ensure field drainage"])
    else if 1500 < w.rainfall then
      (⟨"moderate", "Heavy rainfall may cause waterlogging"⟩,
       ["[MODERATE] Waterlogging possible - improve drainage"])
    else (⟨"none", ""⟩, [])
  let disease : RiskDetail × List String :=
    if 85 < w.humidity then
      (⟨"high", "High humidity favors fungal diseases"⟩,
       ["[HIGH] Disease risk - plan preventive sprays"])
    else if 75 < w.humidity then
      (⟨"moderate", "Moderate disease pressure expected"⟩,
       ["[MODERATE] Disease pressure - monitor crops regularly"])
    else (⟨"none", ""⟩, [])
  let summary := frost.2 ++ heat.2 ++ drought.2 ++ flood.2 ++ disease.2
  { frost := frost.1, drought := drought.1, flood := flood.1,
    heat_stress := heat.1, disease_pressure := disease.1,
    summary :=
      if summary = [] then ["No major weather risks identified for this period"] else summary }

/-- The `irrigation_needs` dictionary. -/
structure IrrigationNeeds where
  level : String
  frequency : String
  estimated_mm_per_week : ℤ
  notes : String

/-- `_calculate_irrigation_needs` (weather_agent.py). -/
def calculateIrrigationNeeds (w : WeatherData) : IrrigationNeeds :=
  let etFactor := (w.temp_max - 20) * 0.15 + (100 - w.humidity) * 0.05
  if w.season = "kharif" ∧ 800 < w.rainfall then
    ⟨"minimal", "only_if_dry_spell", 0, "Monsoon rainfall should be sufficient"⟩
  else if w.rainfall < 100 then
    ⟨"critical", "every_2_3_days", 50 + truncQ (etFactor * 10),
     "Very low rainfall - regular irrigation essential"⟩
  else if w.rainfall < 400 then
    ⟨"high", "twice_weekly", 35 + truncQ (etFactor * 5), "Supplemental irrigation needed"⟩
  else if w.rainfall < 800 then
    ⟨"moderate", "weekly", 20 + truncQ (etFactor * 3), "Irrigation during dry spells"⟩
  else
    ⟨"low", "as_needed", 10, "Rainfall likely sufficient with occasional supplementation"⟩

/-- One entry of `optimal_crops`. -/
structure OptimalCrop where
  crop : String
  weather_suitability : ℚ
  factors : List String

/-- `_suggest_weather_suitable_crops` (weather_agent.py): multiplicative
suitability over temperature, rainfall (60% grace), humidity and frost
tolerance; keep scores ≥ 0.5, sort descending, return the top 8. -/
def suggestWeatherSuitableCrops (w : WeatherData) : List OptimalCrop :=
  let scored := CROP_WEATHER_REQUIREMENTS.filterMap fun cr =>
    let req := cr.2
    let tempStep : ℚ × List String :=
      if req.temp_min ≤ w.temp_min ∧ w.temp_max ≤ req.temp_max then
        (1, ["temperature optimal"])
      else if req.temp_min - 5 ≤ w.temp_min ∧ w.temp_max ≤ req.temp_max + 5 then
        (0.7, ["temperature marginal"])
      else (0.3, ["temperature unsuitable"])
    let rainStep : ℚ × List String :=
      if req.rainfall_min ≤ w.rainfall then (1, ["rainfall sufficient"])
      else if req.rainfall_min * 0.6 ≤ w.rainfall then
        (0.7, ["rainfall marginal - irrigation needed"])
      else (0.4, ["rainfall insufficient"])
    let humFactor : ℚ := if req.humidity_min ≤ w.humidity then 1 else 0.8
    let frostStep : ℚ × List String :=
      if (w.frost_risk = "moderate" ∨ w.frost_risk = "high") ∧ ¬req.frost_tolerant then
        (0.3, ["frost sensitive"])
      else if (w.frost_risk = "moderate" ∨ w.frost_risk = "high") ∧ req.frost_tolerant then
        (1, ["frost tolerant"])
      else (1, [])
    let score := tempStep.1 * rainStep.1 * humFactor * frostStep.1
    let reasons := tempStep.2 ++ rainStep.2 ++ frostStep.2
    if 0.5 ≤ score then
      some ⟨cr.1, round2 score, reasons.take 3⟩
    else none
  (scored.mergeSort fun a b => decide (b.weather_suitability ≤ a.weather_suitability)).take 8

/-- The `season_dates` dictionary (`_get_season_dates`); the Python key
`end` is named `end_` here. -/
structure SeasonDates where
  start : String
  end_ : String
  sowing_window : String

/-- `_get_season_dates` (weather_agent.py). -/
def getSeasonDates (season : String) : SeasonDates :=
  if season = "kharif" then ⟨"June 15", "October 15", "June-July"⟩
  else if season = "rabi" then ⟨"November 1", "March 31", "October-November"⟩
  else if season = "zaid" then ⟨"March 15", "June 15", "March-April"⟩
  else ⟨"June 15", "October 15", "June-July"⟩

/-- The `temperature_range` sub-dictionary of the weather result. -/
structure TemperatureRange where
  min : ℚ
  max : ℚ
  optimal_range : String

/-- The response dictionary of `analyze_weather`. -/
structure WeatherResult where
  error : Option String
  season : String
  season_dates : SeasonDates
  temperature_range : TemperatureRange
  rainfall_mm : ℚ
  rainfall_pattern : String
  humidity_percent : ℚ
  suitability_score : ℤ
  suitability_confidence : ℚ
  risk_assessment : RiskAssessment
  risk_factors : List String
  irrigation_needs : IrrigationNeeds
  optimal_crops : List OptimalCrop
  data_sources : List String
  data_freshness : String
  location_context : AgentLocationContext

/-- The `except` branch of `analyze_weather`.  Keys absent from the
source's error dictionary (risk levels, irrigation `mm`/`notes`) take the
downstream `.get` defaults; `str(e)` is a fixed non-empty message. -/
def weatherErrorResult : WeatherResult :=
  { error := some "unexpected_error",
    season := "unknown", season_dates := ⟨"", "", ""⟩,
    temperature_range := ⟨20, 30, "20-30°C"⟩,
    rainfall_mm := 100, rainfall_pattern := "unknown",
    humidity_percent := 60,
    suitability_score := 5, suitability_confidence := 0.1,
    risk_assessment :=
      ⟨⟨"none", ""⟩, ⟨"none", ""⟩, ⟨"none", ""⟩, ⟨"none", ""⟩, ⟨"none", ""⟩,
       ["Analysis failed"]⟩,
    risk_factors := ["Analysis failed - using defaults"],
    irrigation_needs := ⟨"moderate", "weekly", 0, ""⟩,
    optimal_crops := [],
    data_sources := ["error_fallback"], data_freshness := "unknown",
    location_context := ⟨none, none, none, "error"⟩ }

/-- `analyze_weather` (weather_agent.py).  `_get_coordinates` always
produces coordinates (static table, learning store or country default);
the outcome of the Open-Meteo call is the oracle `env.liveWeather` and the
coordinate provenance string is `env.coordSource`.  The self-learning
weather-observation write is a fire-and-forget side effect and is not
modelled. -/
def analyzeWeather (query : String) (ctx : AgentContext) (env : ExternEnv) : WeatherResult :=
  if env.weatherFails then weatherErrorResult
  else
    let seasonData := extractSeasonInfo query ctx env.currentMonth
    let loc := getLocationContextWeather ctx
    let w := getWeatherData seasonData loc env.liveWeather env.coordSource
    let suit := calculateSuitability w
    let risks := assessComprehensiveRisks w
    { error := none, season := seasonData.season,
      season_dates := getSeasonDates seasonData.season,
      temperature_range := ⟨w.temp_min, w.temp_max, w.optimal_temp_range⟩,
      rainfall_mm := w.rainfall, rainfall_pattern := w.rainfall_pattern,
      humidity_percent := w.humidity,
      suitability_score := suit.1, suitability_confidence := suit.2,
      risk_assessment := risks, risk_factors := risks.summary,
      irrigation_needs := calculateIrrigationNeeds w,
      optimal_crops := suggestWeatherSuitableCrops w,
      data_sources := w.data_sources, data_freshness := w.data_freshness,
      location_context := ⟨ctx.pincode, ctx.district, ctx.state, loc.fallback_level⟩ }

-- ========================================================================
-- Crop planning agent (`src/agents/crop_planning_agent.py`)
-- ========================================================================

/-- Per-hectare input costs of a crop. -/
structure InputCosts where
  seeds : ℚ
  fertilizers : ℚ
  irrigation : ℚ
  pesticides : ℚ

/-- Market price range per quintal. -/
structure PriceRange where
  min : ℚ
  max : ℚ

/-- One row of `CROP_DATABASE`; `varieties` is the trait → variety-list
dictionary kept as an association list in source order. -/
structure CropInfo where
  varieties : List (String × List String)
  input_costs : InputCosts
  expected_yield_kg_ha : ℚ
  market_price_range : PriceRange
  msp_2024 : Option ℚ
  suitable_soil : List String
  water_requirement : String
  government_schemes : List String

/-- `CROP_DATABASE` (crop_planning_agent.py), in source order. -/
def CROP_DATABASE : List (String × CropInfo) :=
  [("rice",
    { varieties := [("high_yield", ["Pusa Basmati 1121", "IR-64", "Swarna"]),
        ("drought_resistant", ["Sahbhagi Dhan", "DRR 44"]),
        ("short_duration", ["Pusa 44", "PR 126"])],
      input_costs := ⟨1500, 8000, 15000, 3000⟩,
      expected_yield_kg_ha := 4500, market_price_range := ⟨2000, 2200⟩,
      msp_2024 := some 2300, suitable_soil := ["clay", "loam", "alluvial"],
      water_requirement := "high",
      government_schemes := ["PM-KISAN", "PMFBY", "Paddy Procurement at MSP"] }),
   ("wheat",
    { varieties := [("high_yield", ["HD 3086", "PBW 725", "WH 1105"]),
        ("drought_resistant", ["HD 2987", "Raj 4120"]),
        ("disease_resistant", ["HD 3226", "DBW 187"])],
      input_costs := ⟨2000, 6000, 8000, 2000⟩,
      expected_yield_kg_ha := 4000, market_price_range := ⟨2100, 2400⟩,
      msp_2024 := some 2275, suitable_soil := ["loam", "clay", "alluvial"],
      water_requirement := "moderate",
      government_schemes := ["PM-KISAN", "PMFBY", "Wheat Procurement"] }),
   ("maize",
    { varieties := [("high_yield", ["HQPM 1", "Vivek QPM 9", "DHM 117"]),
        ("drought_resistant", ["PEHM 5", "Vivek 27"]),
        ("short_duration", ["HQPM 5", "Vivek 21"])],
      input_costs := ⟨2500, 5000, 6000, 2500⟩,
      expected_yield_kg_ha := 5000, market_price_range := ⟨1800, 2100⟩,
      msp_2024 := some 2090, suitable_soil := ["loam", "sandy", "alluvial"],
      water_requirement := "moderate",
      government_schemes := ["PM-KISAN", "PMFBY", "e-NAM"] }),
   ("cotton",
    { varieties := [("high_yield", ["RCH 2 BG II", "Bunny BG II", "Mallika BG II"]),
        ("drought_resistant", ["CICR 2", "Suraj"]),
        ("pest_resistant", ["Bt Cotton varieties"])],
      input_costs := ⟨4000, 8000, 10000, 6000⟩,
      expected_yield_kg_ha := 2000, market_price_range := ⟨6000, 7000⟩,
      msp_2024 := some 7020, suitable_soil := ["black_cotton", "loam"],
      water_requirement := "moderate",
      government_schemes := ["PM-KISAN", "PMFBY", "Cotton Corporation of India Procurement"] }),
   ("soybean",
    { varieties := [("high_yield", ["JS 9560", "JS 20-34", "NRC 142"]),
        ("drought_resistant", ["NRC 86", "JS 335"]),
        ("disease_resistant", ["MACS 1407", "NRC 150"])],
      input_costs := ⟨3000, 4000, 4000, 2000⟩,
      expected_yield_kg_ha := 2200, market_price_range := ⟨4000, 4500⟩,
      msp_2024 := some 4600, suitable_soil := ["loam", "black_cotton", "alluvial"],
      water_requirement := "moderate",
      government_schemes := ["PM-KISAN", "PMFBY", "NAFED Procurement"] }),
   ("groundnut",
    { varieties := [("high_yield", ["TG 37A", "TAG 24", "GPBD 4"]),
        ("drought_resistant", ["ICGV 91114", "TG 26"]),
        ("high_oil", ["Girnar 3", "GJG 9"])],
      input_costs := ⟨4000, 5000, 5000, 2000⟩,
      expected_yield_kg_ha := 2000, market_price_range := ⟨5000, 5800⟩,
      msp_2024 := some 6377, suitable_soil := ["sandy", "loam", "red"],
      water_requirement := "low",
      government_schemes := ["PM-KISAN", "PMFBY", "NAFED Procurement"] }),
   ("chickpea",
    { varieties := [("high_yield", ["JG 14", "Vijay", "JAKI 9218"]),
        ("drought_resistant", ["JG 11", "Digvijay"]),
        ("disease_resistant", ["NBeG 47", "GNG 2144"])],
      input_costs := ⟨3000, 3000, 2000, 1500⟩,
      expected_yield_kg_ha := 1800, market_price_range := ⟨4500, 5500⟩,
      msp_2024 := some 5440, suitable_soil := ["loam", "black_cotton", "clay"],
      water_requirement := "low",
      government_schemes := ["PM-KISAN", "PMFBY", "Pulses Procurement"] }),
   ("mustard",
    { varieties := [("high_yield", ["Pusa Bold", "RH 749", "NRCDR 601"]),
        ("drought_resistant", ["NRCHB 101", "Kranti"]),
        ("early_maturing", ["Pusa Vijay", "RGN 229"])],
      input_costs := ⟨1000, 4000, 3000, 1500⟩,
      expected_yield_kg_ha := 1500, market_price_range := ⟨5000, 5800⟩,
      msp_2024 := some 5650, suitable_soil := ["loam", "sandy", "alluvial"],
      water_requirement := "low",
      government_schemes := ["PM-KISAN", "PMFBY", "NAFED Procurement"] }),
   ("sugarcane",
    { varieties := [("high_yield", ["Co 0238", "CoJ 85", "CoLK 94184"]),
        ("drought_resistant", ["Co 94012", "CoS 97261"]),
        ("high_sugar", ["Co 0118", "CoM 0265"])],
      input_costs := ⟨8000, 12000, 20000, 4000⟩,
      expected_yield_kg_ha := 70000, market_price_range := ⟨300, 400⟩,
      msp_2024 := some 315,
      suitable_soil := ["loam", "clay", "alluvial", "black_cotton"],
      water_requirement := "very_high",
      government_schemes := ["PM-KISAN", "Sugar Development Fund"] }),
   ("potato",
    { varieties := [("high_yield", ["Kufri Jyoti", "Kufri Pukhraj", "Kufri Badshah"]),
        ("processing", ["Kufri Chipsona 1", "Kufri Frysona"]),
        ("disease_resistant", ["Kufri Khyati", "Kufri Himalini"])],
      input_costs := ⟨25000, 8000, 6000, 4000⟩,
      expected_yield_kg_ha := 25000, market_price_range := ⟨800, 1500⟩,
      msp_2024 := none, suitable_soil := ["loam", "sandy", "alluvial"],
      water_requirement := "moderate",
      government_schemes := ["PM-KISAN", "PMFBY", "Cold Storage Subsidy"] })]

/-- `_calculate_confidence` (crop_planning_agent.py). -/
def calculateCropConfidence (crop : String) (soil : SoilResult)
    (weather : WeatherResult) : ℚ :=
  let c1 : ℚ := 0.7
  let soilHealth := (soil.health_score : ℚ) / 10
  let c2 := c1 * (0.4 + 0.6 * soilHealth) * (0.5 + 0.5 * soil.health_confidence)
  let weatherScore := (weather.suitability_score : ℚ) / 10
  let c3 := c2 * (0.4 + 0.6 * weatherScore) * (0.5 + 0.5 * weather.suitability_confidence)
  let c4 :=
    match CROP_DATABASE.lookup crop with
    | some info =>
      let c4a := if soil.soil_type ∈ info.suitable_soil then c3 * 1.15 else c3 * 0.85
      match info.msp_2024 with
      | some _ => c4a * 1.05
      | none => c4a
    | none => c3
  round2 (min 1 c4)

/-- `_generate_reasoning` (crop_planning_agent.py). -/
def generateReasoning (crop : String) (soil : SoilResult) (weather : WeatherResult)
    (info : CropInfo) : String :=
  let reasons : List String :=
    (if soil.soil_type ∈ info.suitable_soil then
      ["well-suited for " ++ soil.soil_type ++ " soil"]
     else []) ++
    (if info.water_requirement = "low" ∧ weather.rainfall_mm < 400 then
      ["low water requirement matches rainfall"]
     else if info.water_requirement = "high" ∧ 800 < weather.rainfall_mm then
      ["adequate rainfall for high water needs"]
     else []) ++
    (match info.msp_2024 with
     | some m => ["MSP of ₹" ++ fmtQ m ++ "/quintal ensures price security"]
     | none => []) ++
    ["suitable for " ++ weather.season ++ " season"]
  String.capitalize crop ++ " is recommended because it is " ++ joinSep ", " reasons

/-- The `expected_yield` dictionary of `_estimate_yield`. -/
structure YieldInfo where
  kg_per_ha : ℤ
  range : String
  quality_factor : String
  soil_health_impact : String

/-- `_estimate_yield` (crop_planning_agent.py); callers always pass
`crop_info`, so the fallback `base_yields` table is not exercised. -/
def estimateYield (soilHealth : ℤ) (info : CropInfo) : YieldInfo :=
  let baseYield := info.expected_yield_kg_ha
  let mq : ℚ × String :=
    if 8 ≤ soilHealth then (1.15, "optimal")
    else if 6 ≤ soilHealth then (1, "good")
    else if 4 ≤ soilHealth then (0.85, "moderate")
    else (0.7, "challenging")
  let adjusted := truncQ (baseYield * mq.1)
  { kg_per_ha := adjusted,
    range := fmtZ (truncQ ((adjusted : ℚ) * 0.85)) ++ "-" ++
      fmtZ (truncQ ((adjusted : ℚ) * 1.1)) ++ " kg/ha",
    quality_factor := mq.2,
    soil_health_impact := fmtZ (truncQ ((mq.1 - 1) * 100)) ++ "% from soil conditions" }

/-- `_get_crop_duration` (crop_planning_agent.py). -/
def getCropDuration (crop : String) : ℕ :=
  ((([("rice", 4), ("wheat", 5), ("maize", 4), ("cotton", 6),
      ("soybean", 4), ("groundnut", 4), ("chickpea", 4), ("mustard", 4),
      ("sugarcane", 12), ("potato", 4), ("barley", 5), ("millet", 3),
      ("sorghum", 4)] : List (String × ℕ)).lookup crop).getD 4)

/-- A crop recommendation before the economics / varieties / schemes
enrichment loop of `plan_crops`. -/
structure CropRecCore where
  name : String
  confidence : ℚ
  reasoning : String
  expected_yield : YieldInfo
  duration_months : ℕ
  water_requirement : String
  msp_available : Bool

/-- The `suitable_crops` accumulation loop of
`_generate_crop_recommendations`: keep database crops whose
`suitable_soil` contains the soil type (or the soil type is unknown),
dropping `high`/`very_high` water crops when irrigation is unavailable. -/
def suitableCropsFor (soilType : String) (irrigationAvailable : Bool) : List String :=
  (CROP_DATABASE.filter fun p =>
    (decide (soilType ∈ p.2.suitable_soil) || decide (soilType = "unknown")) &&
      !((decide (p.2.water_requirement = "very_high") ||
          decide (p.2.water_requirement = "high")) && !irrigationAvailable)).map Prod.fst

/-- `_generate_crop_recommendations` (crop_planning_agent.py): soil-type
and irrigation filter over the crop database, cross-reference with the
weather agent's optimal crops, score the top 5, sort by confidence
descending, return the top 4.  (Its `docs` argument is unused in the
source and omitted here.) -/
def generateCropRecommendations (soil : SoilResult) (weather : WeatherResult)
    (ctx : AgentContext) : List CropRecCore :=
  let weatherCropNames := weather.optimal_crops.map OptimalCrop.crop
  let suitableCrops := suitableCropsFor soil.soil_type ctx.irrigation_available
  let suitableCrops2 :=
    if weatherCropNames ≠ [] then
      (suitableCrops.filter (· ∈ weatherCropNames)) ++
        (suitableCrops.filter (· ∉ weatherCropNames)).take 3
    else suitableCrops
  let recs := (suitableCrops2.take 5).filterMap fun crop =>
    (CROP_DATABASE.lookup crop).map fun info =>
      { name := crop,
        confidence := calculateCropConfidence crop soil weather,
        reasoning := generateReasoning crop soil weather info,
        expected_yield := estimateYield soil.health_score info,
        duration_months := getCropDuration crop,
        water_requirement := info.water_requirement,
        msp_available := info.msp_2024.isSome }
  (recs.mergeSort fun a b => decide (b.confidence ≤ a.confidence)).take 4

/-- The `input_costs` sub-dictionary of the economics result. -/
structure EconInputCosts where
  seeds : ℚ
  fertilizers : ℚ
  irrigation : ℚ
  pesticides : ℚ
  total : ℚ

/-- Revenue / profit at the market minimum, market maximum and MSP. -/
structure EconEstimate where
  at_market_min : ℚ
  at_market_max : ℚ
  at_msp : Option ℚ

/-- The economics dictionary of `_calculate_crop_economics`. -/
structure Economics where
  input_costs : EconInputCosts
  expected_yield_kg : ℚ
  revenue_estimate : EconEstimate
  profit_estimate : EconEstimate
  roi_percent : ℚ
  msp_2024 : Option ℚ
  price_per_quintal : PriceRange
  farm_size_ha : ℚ

/-- `_calculate_crop_economics` (crop_planning_agent.py); `none` models
the `{"error": ...}` dictionary returned for a crop outside the
database. -/
def calculateCropEconomics (crop : String) (ctx : AgentContext) : Option Economics :=
  let farmSize := ctx.farm_size_ha
  match CROP_DATABASE.lookup crop with
  | none => none
  | some info =>
    let ic := info.input_costs
    let totalInputCost := (ic.seeds + ic.fertilizers + ic.irrigation + ic.pesticides) * farmSize
    let expectedYield := info.expected_yield_kg_ha * farmSize
    let minRevenue := (expectedYield / 100) * info.market_price_range.min
    let maxRevenue := (expectedYield / 100) * info.market_price_range.max
    let mspRevenue :=
      match info.msp_2024 with
      | some m => some ((expectedYield / 100) * m)
      | none => none
    let minProfit := minRevenue - totalInputCost
    let maxProfit := maxRevenue - totalInputCost
    let mspProfit :=
      match mspRevenue with
      | some r => if r ≠ 0 then some (r - totalInputCost) else none
      | none => none
    some
      { input_costs := ⟨ic.seeds * farmSize, ic.fertilizers * farmSize,
          ic.irrigation * farmSize, ic.pesticides * farmSize, totalInputCost⟩,
        expected_yield_kg := expectedYield,
        revenue_estimate := ⟨minRevenue, maxRevenue, mspRevenue⟩,
        profit_estimate := ⟨minProfit, maxProfit, mspProfit⟩,
        roi_percent :=
          if 0 < totalInputCost then round1 ((maxProfit / totalInputCost) * 100) else 0,
        msp_2024 := info.msp_2024, price_per_quintal := info.market_price_range,
        farm_size_ha := farmSize }

/-- One variety recommendation (`{name, type, reason}`). -/
structure VarietyRec where
  name : String
  type : String
  reason : String

/-- `varieties.get(key, [])`. -/
def varietiesGet (vs : List (String × List String)) (key : String) : List String :=
  (vs.lookup key).getD []

/-- `varieties.get(k1, varieties.get(k2, []))`. -/
def varietiesGet2 (vs : List (String × List String)) (k1 k2 : String) : List String :=
  match vs.lookup k1 with
  | some v => v
  | none => varietiesGet vs k2

/-- `_get_variety_recommendations` (crop_planning_agent.py). -/
def getVarietyRecommendations (crop : String) (soil : SoilResult)
    (weather : WeatherResult) : List VarietyRec :=
  match CROP_DATABASE.lookup crop with
  | none => []
  | some info =>
    let varieties := info.varieties
    let droughtRisk := weather.risk_assessment.drought.level
    let frostRisk := weather.risk_assessment.frost.level
    let soilHealth := soil.health_score
    let r1 : List VarietyRec :=
      if droughtRisk = "moderate" ∨ droughtRisk = "high" then
        (varietiesGet varieties "drought_resistant").take 2 |>.map fun v =>
          ⟨v, "drought_resistant", "Recommended due to low rainfall risk"⟩
      else []
    let r2 := r1 ++
      (if frostRisk = "moderate" ∨ frostRisk = "high" then
        (varietiesGet2 varieties "short_duration" "early_maturing").take 2 |>.map fun v =>
          ⟨v, "short_duration", "Early harvest before frost"⟩
       else [])
    let r3 := r2 ++
      (if 7 ≤ soilHealth then
        (varietiesGet varieties "high_yield").take 2 |>.map fun v =>
          ⟨v, "high_yield", "Good soil supports high-yield variety"⟩
       else
        (varietiesGet2 varieties "disease_resistant" "drought_resistant").take 2 |>.map fun v =>
          ⟨v, "resilient", "Better suited for challenging conditions"⟩)
    let r4 := r3 ++
      (if ¬(r3.any fun r => r.type = "high_yield") then
        (varietiesGet varieties "high_yield").take 1 |>.map fun v =>
          ⟨v, "high_yield", "High yield potential"⟩
       else [])
    r4.take 4

/-- A resolved government-scheme entry (`{name, benefit, eligibility}`). -/
structure Scheme where
  name : String
  benefit : String
  eligibility : String

/-- `CROP_DATABASE.get(crop, {}).get('msp_2024', 'N/A')` rendered inside
the scheme-benefit f-strings (a missing crop gives `N/A`, a `None` MSP
prints as `None`). -/
def mspStringOf (crop : String) : String :=
  match CROP_DATABASE.lookup crop with
  | some info =>
    match info.msp_2024 with
    | some m => fmtQ m
    | none => "None"
  | none => "N/A"

/-- The `scheme_details` table of `_get_applicable_schemes`, resolved for
a given crop (the benefit strings interpolate that crop's MSP). -/
def schemeDetails (crop : String) : List (String × Scheme) :=
  [("PM-KISAN", ⟨"PM-KISAN", "₹6000/year direct transfer", "All farmers"⟩),
   ("PMFBY", ⟨"Pradhan Mantri Fasal Bima Yojana", "Crop insurance at 1.5-2% premium", "All farmers"⟩),
   ("Paddy Procurement at MSP",
    ⟨"Paddy MSP Procurement", "Guaranteed MSP of ₹" ++ mspStringOf crop ++ "/quintal",
     "Registered farmers"⟩),
   ("Wheat Procurement",
    ⟨"Wheat MSP Procurement", "Guaranteed MSP of ₹" ++ mspStringOf crop ++ "/quintal",
     "Registered farmers"⟩),
   ("e-NAM", ⟨"e-NAM (National Agriculture Market)", "Online trading, better prices", "All farmers"⟩),
   ("NAFED Procurement",
    ⟨"NAFED Procurement", "Procurement at MSP ₹" ++ mspStringOf crop ++ "/quintal",
     "Registered farmers"⟩),
   ("Pulses Procurement",
    ⟨"Pulses Procurement Scheme", "Assured procurement at MSP", "Registered farmers"⟩),
   ("Cotton Corporation of India Procurement",
    ⟨"CCI Cotton Procurement", "MSP of ₹" ++ mspStringOf crop ++ "/quintal", "Cotton farmers"⟩),
   ("Sugar Development Fund",
    ⟨"Sugar Development Fund", "Loans for cane development", "Sugarcane farmers"⟩),
   ("Cold Storage Subsidy",
    ⟨"Cold Storage Subsidy Scheme", "35-50% subsidy on cold storage", "FPOs, farmers"⟩)]

/-- `_get_applicable_schemes` (crop_planning_agent.py). -/
def getApplicableSchemes (crop : String) : List Scheme :=
  match CROP_DATABASE.lookup crop with
  | none => []
  | some info =>
    info.government_schemes.map fun s =>
      ((schemeDetails crop).lookup s).getD
        ⟨s, "Various benefits", "Check with local office"⟩

/-- An `alternatives` entry: the structured `{crop, reason, type}` form of
the happy path, or the bare string form of the error fallback. -/
inductive AltEntry where
  | entry (crop reason type : String)
  | plain (s : String)
  deriving Repr, DecidableEq

/-- `_find_alternatives` (crop_planning_agent.py). -/
def findAlternatives (recommendations : List CropRecCore) (soil : SoilResult)
    (weather : WeatherResult) : List AltEntry :=
  let primaryCrops := recommendations.map CropRecCore.name
  let season := weather.season
  let soilType := soil.soil_type
  let seasonAlternatives : List (String × String) :=
    if season = "rabi" then
      [("lentil", "Short duration, nitrogen fixing"),
       ("pea", "Low water requirement, good market"),
       ("linseed", "Drought tolerant, dual purpose (seed + oil)")]
    else if season = "zaid" then
      [("cucumber", "Short duration, good market price"),
       ("watermelon", "Heat tolerant, high value"),
       ("moong", "Short duration, nitrogen fixing")]
    else
      [("millet", "Low water requirement, drought resistant"),
       ("sorghum", "Hardy crop, good fodder value"),
       ("pigeonpea", "Nitrogen fixing, low input needs")]
  let base := seasonAlternatives.filterMap fun alt =>
    if alt.1 ∉ primaryCrops then
      some (AltEntry.entry alt.1 alt.2 "low_input_alternative")
    else none
  let withSoil := base ++
    (if soilType = "sandy" ∧ "groundnut" ∉ primaryCrops then
      [AltEntry.entry "groundnut" "Ideal for sandy soil drainage" "soil_specific"]
     else if soilType = "clay" ∧ "rice" ∉ primaryCrops then
      [AltEntry.entry "rice" "Clay soil water retention suits rice" "soil_specific"]
     else [])
  withSoil.take 5

/-- A `risks` entry: the structured form of the happy path (the optional
last field holds `affected_crops` or the market-risk `mitigation`), or the
bare string form of the error fallback. -/
inductive RiskEntry where
  | entry (type severity description : String) (affected_crops : List String)
  | market (type severity description mitigation : String)
  | plain (s : String)
  deriving Repr, DecidableEq

/-- `_assess_risks` (crop_planning_agent.py). -/
def assessRisks (soil : SoilResult) (weather : WeatherResult) : List RiskEntry :=
  let soilRisks := soil.constraints.filterMap fun constraint =>
    if strHasSub (lowerStr constraint) "waterlogging" then
      some (RiskEntry.entry "soil" "moderate"
        "Waterlogging risk in monsoon - avoid flood-sensitive crops"
        ["groundnut", "chickpea", "mustard"])
    else if strHasSub (lowerStr constraint) "low water retention" then
      some (RiskEntry.entry "soil" "moderate" "Sandy soil needs frequent irrigation"
        ["rice", "sugarcane"])
    else none
  let ra := weather.risk_assessment
  let weatherRisks :=
    (if ra.drought.level = "moderate" ∨ ra.drought.level = "high" then
      [RiskEntry.entry "weather" ra.drought.level
        "Drought risk - plan irrigation or choose drought-tolerant varieties"
        ["rice", "sugarcane", "maize"]]
     else []) ++
    (if ra.flood.level = "moderate" ∨ ra.flood.level = "high" then
      [RiskEntry.entry "weather" ra.flood.level
        "Heavy rainfall may cause flooding - ensure drainage"
        ["groundnut", "potato", "onion"]]
     else []) ++
    (if ra.disease_pressure.level = "moderate" ∨ ra.disease_pressure.level = "high" then
      [RiskEntry.entry "disease" ra.disease_pressure.level
        "High humidity increases fungal disease risk"
        ["rice", "potato", "tomato"]]
     else [])
  soilRisks ++ weatherRisks ++
    [RiskEntry.market "market" "low"
      "Price volatility possible - consider MSP-covered crops"
      "Register with local procurement agency"]

/-- The risk `type` of an entry (`r.get("type")`). -/
def riskType : RiskEntry → String
  | .entry t _ _ _ => t
  | .market t _ _ _ => t
  | .plain _ => ""

/-- A `precautions` entry: structured `{action, priority, timing}` or the
bare string form of the error fallback. -/
inductive PrecautionEntry where
  | entry (action priority timing : String)
  | plain (s : String)
  deriving Repr, DecidableEq

/-- `_suggest_precautions` (crop_planning_agent.py). -/
def suggestPrecautions (risks : List RiskEntry) (weather : WeatherResult) :
    List PrecautionEntry :=
  let riskTypes := risks.map riskType
  let p1 : List PrecautionEntry :=
    if "weather" ∈ riskTypes then
      (let droughtLevel := weather.risk_assessment.drought.level
       if droughtLevel = "moderate" ∨ droughtLevel = "high" then
        [.entry "Install drip/sprinkler irrigation" "high" "before_sowing",
         .entry "Use drought-resistant varieties" "high" "seed_selection",
         .entry "Apply mulch to conserve moisture" "medium" "after_germination"]
       else []) ++
      (let floodLevel := weather.risk_assessment.flood.level
       if floodLevel = "moderate" ∨ floodLevel = "high" then
        [.entry "Create drainage channels" "high" "before_sowing",
         .entry "Use raised bed cultivation" "medium" "land_preparation",
         .entry "Keep flood-tolerant varieties ready" "medium" "seed_selection"]
       else [])
    else []
  let p2 := p1 ++
    (if "disease" ∈ riskTypes then
      [.entry "Apply preventive fungicide spray" "medium" "regular_intervals",
       .entry "Maintain proper plant spacing" "medium" "sowing",
       .entry "Remove infected plants immediately" "high" "monitoring"]
     else [])
  let p3 := p2 ++
    (if "soil" ∈ riskTypes then
      [.entry "Apply soil amendments as recommended" "high" "before_sowing",
       .entry "Practice crop rotation" "medium" "planning",
       .entry "Add organic matter to improve soil structure" "medium" "land_preparation"]
     else [])
  let p4 := p3 ++
    [.entry "Get crop insurance under PMFBY" "high" "before_sowing",
     .entry "Register for MSP procurement if applicable" "medium" "pre_harvest",
     .entry "Maintain records for scheme benefits" "low" "ongoing"]
  p4.take 10

/-- `_aggregate_confidence` (crop_planning_agent.py). -/
def aggregateConfidence (soilConfidence weatherConfidence : ℚ)
    (recommendations : List CropRecCore) : ℚ :=
  let cropConfidences := recommendations.map CropRecCore.confidence
  let avgCropConfidence :=
    if cropConfidences.length = 0 then (0.5 : ℚ)
    else cropConfidences.sum / (cropConfidences.length : ℚ)
  round2 (0.3 * soilConfidence + 0.3 * weatherConfidence + 0.4 * avgCropConfidence)

/-- A fully enriched crop recommendation (after the economics / varieties
/ schemes loop in `plan_crops`). -/
structure CropRec where
  name : String
  confidence : ℚ
  reasoning : String
  expected_yield : YieldInfo
  duration_months : ℕ
  water_requirement : String
  msp_available : Bool
  economics : Option Economics
  varieties : List VarietyRec
  government_schemes : List Scheme

/-- The `planning_factors` sub-dictionary. -/
structure PlanningFactors where
  soil_health : ℤ
  soil_confidence : ℚ
  weather_suitability : ℤ
  weather_confidence : ℚ
  irrigation_available : Bool

/-- The response dictionary of `plan_crops`. -/
structure CropPlan where
  error : Option String
  recommended_crops : List CropRec
  alternatives : List AltEntry
  risks : List RiskEntry
  precautions : List PrecautionEntry
  overall_confidence : ℚ
  season : String
  planning_factors : Option PlanningFactors
  data_sources : List String

/-- The `except` branch of `plan_crops` (error-fallback dictionary with
bare-string alternatives, risks and precautions). -/
def cropPlanErrorResult : CropPlan :=
  { error := some "unexpected_error",
    recommended_crops := [],
    alternatives := [.plain "Consult local agricultural expert",
      .plain "Contact KVK (Krishi Vigyan Kendra)"],
    risks := [.plain "Unable to assess risks - analysis incomplete"],
    precautions := [.plain "Seek professional advice before planting"],
    overall_confidence := 0.1,
    season := "", planning_factors := none,
    data_sources := ["error_fallback"] }

/-- `plan_crops` (crop_planning_agent.py).  The retrieval call feeds
`docs`, which `_generate_crop_recommendations` never reads; an exception
from it (or any other unexpected error inside the `try:`) is the
`env.cropFails` flag. -/
def planCrops (soil : SoilResult) (weather : WeatherResult) (_query : String)
    (ctx : AgentContext) (env : ExternEnv) : CropPlan :=
  if env.cropFails then cropPlanErrorResult
  else
    let recsCore := generateCropRecommendations soil weather ctx
    let recs : List CropRec := recsCore.map fun r =>
      { name := r.name, confidence := r.confidence, reasoning := r.reasoning,
        expected_yield := r.expected_yield, duration_months := r.duration_months,
        water_requirement := r.water_requirement, msp_available := r.msp_available,
        economics := calculateCropEconomics r.name ctx,
        varieties := getVarietyRecommendations r.name soil weather,
        government_schemes := getApplicableSchemes r.name }
    let risks := assessRisks soil weather
    { error := none,
      recommended_crops := recs,
      alternatives := findAlternatives recsCore soil weather,
      risks := risks,
      precautions := suggestPrecautions risks weather,
      overall_confidence :=
        aggregateConfidence soil.health_confidence weather.suitability_confidence recsCore,
      season := weather.season,
      planning_factors := some
        ⟨soil.health_score, soil.health_confidence, weather.suitability_score,
         weather.suitability_confidence, ctx.irrigation_available⟩,
      data_sources := ["rag_knowledge", "crop_database", "government_msp"] }

-- Helper lemmas for the crop-planning claims ----------------------------

theorem lookup_eq_of_mem_nodupKeys {β : Type} (l : List (String × β))
    (hnd : (l.map Prod.fst).Nodup) (a : String) (b : β) (hmem : (a, b) ∈ l) :
    l.lookup a = some b := by
  induction l with
  | nil => cases hmem
  | cons p t ih =>
    rcases List.mem_cons.mp hmem with h | hmem'
    · subst h
      simp [List.lookup]
    · have hnd' : (t.map Prod.fst).Nodup := (List.nodup_cons.mp (by simpa using hnd)).2
      have hka : p.1 ∉ t.map Prod.fst := (List.nodup_cons.mp (by simpa using hnd)).1
      have hne : (a == p.1) = false := by
        rw [beq_eq_false_iff_ne]
        intro h
        apply hka
        rw [← h]
        exact List.mem_map_of_mem Prod.fst hmem'
      cases p with
      | mk k v =>
        simp only [List.lookup, hne]
        exact ih hnd' hmem'

/-- Without irrigation, every crop passing the suitability filter has a
non-high water requirement. -/
theorem mem_suitableCropsFor (c : String) (soilType : String)
    (h : c ∈ suitableCropsFor soilType false) :
    ∃ info, (c, info) ∈ CROP_DATABASE ∧
      info.water_requirement ≠ "high" ∧ info.water_requirement ≠ "very_high" := by
  unfold suitableCropsFor at h
  rw [List.mem_map] at h
  obtain ⟨p, hp, rfl⟩ := h
  rw [List.mem_filter] at hp
  refine ⟨p.2, by simpa using hp.1, ?_, ?_⟩ <;>
  · have h2 := hp.2
    simp only [Bool.and_eq_true, Bool.not_eq_true', Bool.and_eq_false_iff,
      Bool.or_eq_false_iff, decide_eq_false_iff_not, Bool.not_false] at h2
    rcases h2.2 with h3 | h3
    · exact fun hw => absurd hw (by tauto)
    · simp at h3

/-- C4: with `irrigation_available = false`, no recommended crop has a
`high` or `very_high` water requirement; in particular neither rice nor
sugarcane is recommended. -/
theorem noHighWaterCrops_withoutIrrigation (soil : SoilResult) (weather : WeatherResult)
    (query : String) (ctx : AgentContext) (env : ExternEnv)
    (hirr : ctx.irrigation_available = false) :
    ∀ r ∈ (planCrops soil weather query ctx env).recommended_crops,
      r.water_requirement ≠ "high" ∧ r.water_requirement ≠ "very_high" ∧
        r.name ≠ "rice" ∧ r.name ≠ "sugarcane" := by
  intro r hr
  unfold planCrops at hr
  by_cases hf : env.cropFails
  · simp [hf, cropPlanErrorResult] at hr
  · rw [Bool.not_eq_true] at hf
    simp only [hf, Bool.false_eq_true, if_false] at hr
    rw [List.mem_map] at hr
    obtain ⟨g, hg, rfl⟩ := hr
    unfold generateCropRecommendations at hg
    have hg2 := (List.take_sublist 4 _).subset hg
    rw [List.mem_mergeSort] at hg2
    rw [List.mem_filterMap] at hg2
    obtain ⟨crop, hcrop, hbuild⟩ := hg2
    have hcrop2 := (List.take_sublist 5 _).subset hcrop
    have hsuit : crop ∈ suitableCropsFor soil.soil_type ctx.irrigation_available := by
      by_cases hw : (weather.optimal_crops.map OptimalCrop.crop) ≠ []
      · rw [if_pos hw] at hcrop2
        rcases List.mem_append.mp hcrop2 with h | h
        · exact (List.mem_filter.mp h).1
        · exact (List.mem_filter.mp ((List.take_sublist 3 _).subset h)).1
      · rw [if_neg hw] at hcrop2
        exact hcrop2
    rw [hirr] at hsuit
    obtain ⟨info, hmem, hw1, hw2⟩ := mem_suitableCropsFor crop soil.soil_type hsuit
    have hlook : CROP_DATABASE.lookup crop = some info :=
      lookup_eq_of_mem_nodupKeys CROP_DATABASE (by decide) crop info hmem
    rw [hlook] at hbuild
    simp only [Option.map_some', Option.some_inj] at hbuild
    subst hbuild
    have hri : (crop = "rice" → info.water_requirement = "high") ∧
        (crop = "sugarcane" → info.water_requirement = "very_high") := by
      have hm := hmem
      simp only [CROP_DATABASE, List.mem_cons, List.not_mem_nil, or_false,
        Prod.mk.injEq] at hm
      rcases hm with ⟨h1, h2⟩|⟨h1, h2⟩|⟨h1, h2⟩|⟨h1, h2⟩|⟨h1, h2⟩|⟨h1, h2⟩|⟨h1, h2⟩|⟨h1, h2⟩|⟨h1, h2⟩|⟨h1, h2⟩ <;>
        subst h1 <;> subst h2 <;>
        exact ⟨fun h => by first | rfl | exact absurd h (by decide),
               fun h => by first | rfl | exact absurd h (by decide)⟩
    exact ⟨hw1, hw2, fun hrice => hw1 (hri.1 hrice),
           fun hcane => hw2 (hri.2 hcane)⟩

-- Shared concrete fixtures used by witnesses and counterexamples ---------

/-- A concrete soil result (sandy soil). -/
def exSoilSandy : SoilResult :=
  { error := none, soil_type := "sandy", ph_level := 7,
    npk_levels := ⟨0, 0, 0⟩, organic_matter_percent := 0.5,
    micronutrients := [],
    soil_characteristics := ⟨"excellent", "low", "easy", "low"⟩,
    health_score := 5, health_confidence := 0.5,
    constraints := ["Low nutrient retention"], recommendations := [],
    data_sources := ["user_query"], data_freshness := "user_provided",
    location_context := ⟨none, none, none, "default"⟩ }

/-- A concrete agent context without irrigation. -/
def exCtxNoIrrigation : AgentContext :=
  ⟨none, none, none, "en", 1, false, none, none⟩

/-- A concrete external environment: no failures, no live data, no regex
captures, July clock. -/
def exEnv : ExternEnv :=
  { soilFails := false, weatherFails := false, cropFails := false,
    learnedSoil := fun _ => none, liveWeather := none,
    coordSource := "default_india", currentMonth := 7,
    phCapture := none, npkTriple := none, nCapture := none, pCapture := none,
    kCapture := none, omCapture := none, microValues := [] }

/-- Witness for C4: a concrete run (sandy soil, default weather, no
irrigation) on which the theorem's hypothesis holds. -/
theorem noHighWaterCrops_withoutIrrigation_witness :
    exCtxNoIrrigation.irrigation_available = false ∧
      ∀ r ∈ (planCrops exSoilSandy (analyzeWeather "suggest crops" exCtxNoIrrigation exEnv)
          "suggest crops" exCtxNoIrrigation exEnv).recommended_crops,
        r.water_requirement ≠ "high" ∧ r.water_requirement ≠ "very_high" ∧
          r.name ≠ "rice" ∧ r.name ≠ "sugarcane" :=
  ⟨by decide,
   noHighWaterCrops_withoutIrrigation exSoilSandy
     (analyzeWeather "suggest crops" exCtxNoIrrigation exEnv)
     "suggest crops" exCtxNoIrrigation exEnv (by decide)⟩

/-- C6: the recommended-crops list has at most 4 entries and is sorted in
descending order of confidence. -/
theorem recommendedCrops_top4_sorted (soil : SoilResult) (weather : WeatherResult)
    (query : String) (ctx : AgentContext) (env : ExternEnv) :
    (planCrops soil weather query ctx env).recommended_crops.length ≤ 4 ∧
      (planCrops soil weather query ctx env).recommended_crops.Pairwise
        (fun a b => b.confidence ≤ a.confidence) := by
  by_cases hf : env.cropFails
  · simp [planCrops, hf, cropPlanErrorResult]
  · rw [Bool.not_eq_true] at hf
    simp only [planCrops, hf, Bool.false_eq_true, if_false]
    constructor
    · rw [List.length_map]
      unfold generateCropRecommendations
      simp only [List.length_take]
      exact min_le_left _ _
    · apply @List.Pairwise.map _ _ (fun a b : CropRecCore => b.confidence ≤ a.confidence)
      · intro a b h; exact h
      · unfold generateCropRecommendations
        apply List.Pairwise.sublist (List.take_sublist 4 _)
        have hs := @List.sorted_mergeSort CropRecCore
          (fun a b : CropRecCore => decide (b.confidence ≤ a.confidence))
          (fun a b c hab hbc => by
            simp only [decide_eq_true_iff] at *
            exact le_trans hbc hab)
          (fun a b => by
            simp only [Bool.or_eq_true, decide_eq_true_iff]
            exact le_total b.confidence a.confidence)
        exact (hs _).imp (fun h => of_decide_eq_true h)

-- ========================================================================
-- Intent router (`src/agents/orchestrator.py`, `_analyze_query_intent`)
-- ========================================================================

/-- One intent pattern (`{keywords, weight}`). -/
structure IntentPattern where
  keywords : List String
  weight : ℚ

/-- `INTENT_PATTERNS` (orchestrator.py), in source order. -/
def INTENT_PATTERNS : List (String × IntentPattern) :=
  [("soil_analysis",
    ⟨["soil", "ph", "clay", "sandy", "loam", "nitrogen", "phosphorus",
      "potassium", "npk", "fertile", "fertility", "land", "ground",
      "earth", "mitti", "organic matter", "micronutrient"], 1.0⟩),
   ("weather_analysis",
    ⟨["weather", "rain", "rainfall", "season", "kharif", "rabi", "zaid",
      "temperature", "humidity", "monsoon", "winter", "summer", "climate",
      "frost", "drought", "flood", "irrigation"], 1.0⟩),
   ("crop_planning",
    ⟨["crop", "plant", "grow", "cultivate", "farm", "recommend", "suggest",
      "what to plant", "which crop", "best crop", "sow", "harvest", "yield",
      "variety", "seed", "profit", "income", "msp", "price"], 1.2⟩),
   ("market_info",
    ⟨["price", "msp", "market", "sell", "income", "profit", "cost",
      "mandi", "procurement", "subsidy", "scheme", "loan"], 0.8⟩),
   ("pest_disease",
    ⟨["pest", "disease", "insect", "fungus", "virus", "blight", "rot",
      "spray", "pesticide", "medicine", "treatment"], 0.9⟩)]

/-- A detected intent (`{score, matched_keywords}`). -/
structure DetectedIntent where
  score : ℚ
  matched_keywords : List String

/-- The keyword scoring loop of `_analyze_query_intent`: keep intents with
at least one keyword occurring in the lower-cased query, scored by match
count times weight. -/
def detectIntents (ql : String) : List (String × DetectedIntent) :=
  INTENT_PATTERNS.filterMap fun p =>
    let matched := p.2.keywords.filter fun kw => strHasSub ql kw
    if matched.length ≠ 0 then
      some (p.1, ⟨(matched.length : ℚ) * p.2.weight, matched⟩)
    else none

/-- The first two appends of the agent-selection block: `soil` when
`soil_analysis` matched, `weather` when `weather_analysis` matched. -/
def agentsExplicit (detected : List (String × DetectedIntent)) : List String :=
  (if (detected.lookup "soil_analysis").isSome then ["soil"] else []) ++
    (if (detected.lookup "weather_analysis").isSome then ["weather"] else [])

/-- The crop-planning append: when `crop_planning` or `market_info`
matched, add `crop_planning` and ensure `soil` and `weather` are present. -/
def agentsWithCrop (detected : List (String × DetectedIntent)) : List String :=
  if (detected.lookup "crop_planning").isSome ∨ (detected.lookup "market_info").isSome then
    let a1 := agentsExplicit detected ++ ["crop_planning"]
    let a2 := if "soil" ∉ a1 then a1 ++ ["soil"] else a1
    if "weather" ∉ a2 then a2 ++ ["weather"] else a2
  else agentsExplicit detected

/-- The previous-queries continuity block: the most recent previous query
may add `soil` and/or `weather`. -/
def agentsWithContinuity (detected : List (String × DetectedIntent))
    (previous_queries : List String) : List String :=
  match previous_queries.getLast? with
  | some recent =>
    let rl := lowerStr recent
    let base := agentsWithCrop detected
    let a := if strHasSub rl "soil" ∧ "soil" ∉ base then base ++ ["soil"] else base
    if (["season", "weather", "kharif", "rabi"].any fun s => strHasSub rl s) ∧
        "weather" ∉ a then a ++ ["weather"]
    else a
  | none => agentsWithCrop detected

/-- The agent-selection block of `_analyze_query_intent` (the sequential
appends over the `agents` list, before deduplication), falling back to all
three agents when the list ends up empty. -/
def selectAgents (detected : List (String × DetectedIntent))
    (previous_queries : List String) : List String :=
  if agentsWithContinuity detected previous_queries = [] then
    ["soil", "weather", "crop_planning"]
  else agentsWithContinuity detected previous_queries

/-- The result of `_analyze_query_intent`. -/
structure IntentAnalysis where
  agents : List String
  confidence : ℚ
  detected_intents : List (String × DetectedIntent)
  is_default_selection : Bool

/-- `_analyze_query_intent` (orchestrator.py).  `list(set(agents))`
deduplicates with unspecified (hash) order; it is modelled as
`List.dedup`, which preserves membership. -/
def analyzeQueryIntent (query : String) (ctx : QueryContext) : IntentAnalysis :=
  let ql := lowerStr query
  let detected := detectIntents ql
  let agents := selectAgents detected ctx.previous_queries
  let totalScore := (detected.map fun d => d.2.score).sum
  let maxPossible := (wordCount query : ℚ) * 0.5
  let confidence0 := if 0 < maxPossible then min 1 (totalScore / maxPossible) else 0.5
  let confidence1 := if ¬detected.isEmpty then max 0.6 confidence0 else confidence0
  { agents := agents.dedup, confidence := round2 confidence1,
    detected_intents := detected, is_default_selection := detected.isEmpty }

-- C7 helper lemmas -------------------------------------------------------

theorem mem_agentsExplicit (detected : List (String × DetectedIntent)) (x : String)
    (hx : x ∈ agentsExplicit detected) : x = "soil" ∨ x = "weather" := by
  unfold agentsExplicit at hx
  rcases List.mem_append.mp hx with h | h <;> split_ifs at h <;> simp_all

theorem agentsWithCrop_has_soil_weather (detected : List (String × DetectedIntent))
    (hc : (detected.lookup "crop_planning").isSome ∨
      (detected.lookup "market_info").isSome) :
    "soil" ∈ agentsWithCrop detected ∧ "weather" ∈ agentsWithCrop detected := by
  unfold agentsWithCrop
  rw [if_pos hc]
  dsimp only
  constructor <;> (split_ifs <;> simp_all [List.mem_append])

theorem mem_agentsWithContinuity_of_crop (detected : List (String × DetectedIntent))
    (prev : List String) (x : String) (hx : x ∈ agentsWithCrop detected) :
    x ∈ agentsWithContinuity detected prev := by
  unfold agentsWithContinuity
  rcases prev.getLast? with _ | recent
  · exact hx
  · dsimp only
    split_ifs <;> simp_all [List.mem_append]

theorem mem_agentsWithContinuity (detected : List (String × DetectedIntent))
    (prev : List String) (x : String) (hx : x ∈ agentsWithContinuity detected prev) :
    x ∈ agentsWithCrop detected ∨ x = "soil" ∨ x = "weather" := by
  unfold agentsWithContinuity at hx
  revert hx
  rcases prev.getLast? with _ | recent
  · exact fun hx => Or.inl hx
  · intro hx
    dsimp only at hx
    split_ifs at hx <;> simp_all [List.mem_append] <;> tauto

/-- A query context whose only content is one previous query, `"soil"`. -/
def exQCtxPrevSoil : QueryContext := ⟨none, none, none, none, ["soil"], none⟩

/-- An empty query context. -/
def exQCtxEmpty : QueryContext := ⟨none, none, none, none, [], none⟩

/-- Counterexample to C7 as stated: for the query `"hello"` (no intent
pattern matches) with previous query `"soil"`, the continuity block adds
`soil`, so the selection is `["soil"]` — not the default triple — although
`is_default_selection` is true. -/
theorem intentDefault_counterexample :
    (analyzeQueryIntent "hello" exQCtxPrevSoil).detected_intents = [] ∧
      (analyzeQueryIntent "hello" exQCtxPrevSoil).is_default_selection = true ∧
      (analyzeQueryIntent "hello" exQCtxPrevSoil).agents = ["soil"] :=
  ⟨rfl, rfl, rfl⟩

/-- C7 (amended): the selected set contains `soil` and `weather` whenever
it contains `crop_planning`; and when no intent pattern matches and the
previous-query continuity adds nothing (no previous queries), the set is
exactly `{soil, weather, crop_planning}` with `is_default_selection`. -/
theorem intentAgents_cropPlanning_closure (query : String) (ctx : QueryContext) :
    ("crop_planning" ∈ (analyzeQueryIntent query ctx).agents →
      "soil" ∈ (analyzeQueryIntent query ctx).agents ∧
        "weather" ∈ (analyzeQueryIntent query ctx).agents) ∧
    ((analyzeQueryIntent query ctx).detected_intents = [] →
      ctx.previous_queries = [] →
      (analyzeQueryIntent query ctx).agents = ["soil", "weather", "crop_planning"] ∧
        (analyzeQueryIntent query ctx).is_default_selection = true) := by
  constructor
  · intro hcp
    have hcp' : "crop_planning" ∈
        selectAgents (detectIntents (lowerStr query)) ctx.previous_queries :=
      List.mem_dedup.mp hcp
    have goal : "soil" ∈ selectAgents (detectIntents (lowerStr query)) ctx.previous_queries ∧
        "weather" ∈ selectAgents (detectIntents (lowerStr query)) ctx.previous_queries := by
      unfold selectAgents at hcp' ⊢
      by_cases hempty :
          agentsWithContinuity (detectIntents (lowerStr query)) ctx.previous_queries = []
      · rw [if_pos hempty]
        exact ⟨by simp, by simp⟩
      · rw [if_neg hempty] at hcp' ⊢
        rcases mem_agentsWithContinuity _ _ _ hcp' with h | h | h
        · by_cases hc : ((detectIntents (lowerStr query)).lookup "crop_planning").isSome ∨
              ((detectIntents (lowerStr query)).lookup "market_info").isSome
          · obtain ⟨hs, hw⟩ := agentsWithCrop_has_soil_weather _ hc
            exact ⟨mem_agentsWithContinuity_of_crop _ _ _ hs,
                   mem_agentsWithContinuity_of_crop _ _ _ hw⟩
          · rw [agentsWithCrop, if_neg hc] at h
            rcases mem_agentsExplicit _ _ h with h2 | h2 <;> simp at h2
        · simp at h
        · simp at h
    exact ⟨List.mem_dedup.mpr goal.1, List.mem_dedup.mpr goal.2⟩
  · intro hdet hprev
    have hd : detectIntents (lowerStr query) = [] := hdet
    constructor
    · show (selectAgents (detectIntents (lowerStr query)) ctx.previous_queries).dedup = _
      rw [hd, hprev]
      decide
    · show (detectIntents (lowerStr query)).isEmpty = true
      rw [hd]
      rfl

/-- Witness for C7 (amended) at the query `"hello"` with no previous
queries: both implications fire. -/
theorem intentAgents_cropPlanning_closure_witness :
    "crop_planning" ∈ (analyzeQueryIntent "hello" exQCtxEmpty).agents ∧
      (analyzeQueryIntent "hello" exQCtxEmpty).detected_intents = [] ∧
      exQCtxEmpty.previous_queries = [] ∧
      ("soil" ∈ (analyzeQueryIntent "hello" exQCtxEmpty).agents ∧
        "weather" ∈ (analyzeQueryIntent "hello" exQCtxEmpty).agents) ∧
      (analyzeQueryIntent "hello" exQCtxEmpty).agents = ["soil", "weather", "crop_planning"] ∧
      (analyzeQueryIntent "hello" exQCtxEmpty).is_default_selection = true :=
  ⟨by decide, rfl, rfl,
   (intentAgents_cropPlanning_closure "hello" exQCtxEmpty).1 (by decide),
   (intentAgents_cropPlanning_closure "hello" exQCtxEmpty).2 rfl rfl⟩

-- ========================================================================
-- Orchestrator (`src/agents/orchestrator.py`)
-- ========================================================================

/-- Python's `str.upper()` (ASCII). -/
def upperStr (s : String) : String := String.mk (s.data.map Char.toUpper)

/-- One entry of `agent_errors`. -/
structure AgentError where
  agent : String
  error : String

/-- The orchestrator response dictionary. -/
structure OrchResponse where
  query : String
  intent_analysis : IntentAnalysis
  agents_invoked : List String
  soil_data : Option SoilResult
  weather_data : Option WeatherResult
  crop_plan : Option CropPlan
  agent_errors : List AgentError
  overall_confidence : ℚ
  data_sources : List String
  data_freshness_summary : List (String × String)
  llm_prompt_input : String

/-- `_get_default_soil_data` (orchestrator.py).  Keys absent from the
source dictionary take the defaults applied by its only consumer,
`plan_crops`. -/
def defaultSoilData : SoilResult :=
  { error := none, soil_type := "loam", ph_level := 7.0,
    npk_levels := ⟨0, 0, 0⟩, organic_matter_percent := 0,
    micronutrients := [],
    soil_characteristics := ⟨"good", "moderate", "easy", "good"⟩,
    health_score := 5, health_confidence := 0.2,
    constraints := ["Using default values - soil analysis unavailable"],
    recommendations := ["Get soil tested for accurate recommendations"],
    data_sources := ["default_fallback"], data_freshness := "unknown",
    location_context := ⟨none, none, none, "default"⟩ }

/-- `_get_default_weather_data` (orchestrator.py); keys absent from the
source dictionary take the defaults applied by `plan_crops`. -/
def defaultWeatherData : WeatherResult :=
  { error := none, season := "kharif", season_dates := ⟨"", "", ""⟩,
    temperature_range := ⟨22, 35, ""⟩,
    rainfall_mm := 800, rainfall_pattern := "",
    humidity_percent := 70,
    suitability_score := 5, suitability_confidence := 0.2,
    risk_assessment :=
      ⟨⟨"none", ""⟩, ⟨"none", ""⟩, ⟨"none", ""⟩, ⟨"none", ""⟩, ⟨"none", ""⟩, []⟩,
    risk_factors := ["Using default values - weather analysis unavailable"],
    irrigation_needs := ⟨"moderate", "weekly", 0, ""⟩,
    optimal_crops := [],
    data_sources := ["default_fallback"], data_freshness := "unknown",
    location_context := ⟨none, none, none, "default"⟩ }

/-- `_calculate_overall_confidence` (orchestrator.py): the confidence and
weight lists are built per present agent result, the intent confidence is
always appended. -/
def calculateOverallConfidence (resp : OrchResponse) : ℚ :=
  let pairs : List (ℚ × ℚ) :=
    (match resp.soil_data with
     | some s => [(s.health_confidence, (0.25 : ℚ))]
     | none => []) ++
    (match resp.weather_data with
     | some w => [(w.suitability_confidence, (0.25 : ℚ))]
     | none => []) ++
    (match resp.crop_plan with
     | some c => [(c.overall_confidence, (0.35 : ℚ))]
     | none => []) ++
    [(resp.intent_analysis.confidence, (0.15 : ℚ))]
  let errorPenalty := (0.1 : ℚ) * (resp.agent_errors.length : ℚ)
  if pairs ≠ [] then
    let weightedSum := (pairs.map fun p => p.1 * p.2).sum
    let totalWeight := (pairs.map Prod.snd).sum
    round2 (max 0.1 (min 1 (weightedSum / totalWeight - errorPenalty)))
  else 0.3

/-- `_summarize_data_freshness` (orchestrator.py). -/
def summarizeDataFreshness (resp : OrchResponse) : List (String × String) :=
  let f1 : List (String × String) :=
    match resp.soil_data with
    | some s => [("soil", s.data_freshness)]
    | none => []
  let f2 := f1 ++
    (match resp.weather_data with
     | some w => [("weather", w.data_freshness)]
     | none => [])
  let f3 := f2 ++
    (match resp.crop_plan with
     | some _ => [("crop_economics", "2024_msp_data")]
     | none => [])
  let overall :=
    if f3.all (fun p => decide (p.2 = "user_provided" ∨ p.2 = "live")) then "high_accuracy"
    else if f3.any (fun p => decide (p.2 = "historical")) then "estimated_from_historical"
    else "mixed_sources"
  f3 ++ [("overall", overall)]

/-- The fixed instruction block appended last by `_generate_llm_prompt`
(note the "mention that recommendations are estimates" line is emitted
unconditionally; its wording delegates the 50% condition to the LLM). -/
def instructionBlock : List String :=
  ["", sepLine, "Instructions for Response:",
   "- Provide a helpful, natural response to the farmer",
   "- Focus on practical, actionable farming advice",
   "- Explain technical terms in simple language",
   "- Include specific recommendations based on the analysis",
   "- Mention government schemes if applicable",
   "- Include any risks and how to mitigate them",
   "- If confidence is below 50%, mention that recommendations are estimates",
   "- Keep response concise but comprehensive (2-3 paragraphs)",
   "", "Response:"]

/-- The soil block of `_generate_llm_prompt`: emitted when `soil_data` is
present and carries no (truthy) `error`. -/
def soilSection (sd : Option SoilResult) : List String :=
  match sd with
  | none => []
  | some s =>
    if s.error.getD "" = "" then
      ["", "SOIL ANALYSIS:",
       "- Soil Type: " ++ s.soil_type,
       "- pH Level: " ++ fmtQ s.ph_level,
       "- Health Score: " ++ fmtZ s.health_score ++ "/10 (Confidence: " ++
         fmtPct (s.health_confidence * 100) ++ "%)"] ++
      (if 0 < s.npk_levels.nitrogen ∨ 0 < s.npk_levels.phosphorus ∨
          0 < s.npk_levels.potassium then
        ["- NPK Levels: N=" ++ fmtQ s.npk_levels.nitrogen ++ ", P=" ++
          fmtQ s.npk_levels.phosphorus ++ ", K=" ++ fmtQ s.npk_levels.potassium]
       else []) ++
      (if 0 < s.organic_matter_percent then
        ["- Organic Matter: " ++ fmtQ s.organic_matter_percent ++ "%"]
       else []) ++
      (if s.constraints ≠ [] then
        ["- Constraints: " ++ joinSep "; " (s.constraints.take 3)]
       else []) ++
      (if s.recommendations ≠ [] then
        ["- Soil Recommendations: " ++ joinSep "; " (s.recommendations.take 3)]
       else []) ++
      [""]
    else []

/-- The weather block of `_generate_llm_prompt` (the irrigation line is
always emitted: the `irrigation_needs` dictionary is never empty). -/
def weatherSection (wd : Option WeatherResult) : List String :=
  match wd with
  | none => []
  | some w =>
    if w.error.getD "" = "" then
      ["WEATHER ANALYSIS:",
       "- Season: " ++ w.season,
       "- Temperature: " ++ fmtQ w.temperature_range.min ++ "°C - " ++
         fmtQ w.temperature_range.max ++ "°C",
       "- Expected Rainfall: " ++ fmtQ w.rainfall_mm ++ "mm",
       "- Humidity: " ++ fmtQ w.humidity_percent ++ "%",
       "- Suitability Score: " ++ fmtZ w.suitability_score ++ "/10"] ++
      ["- Irrigation Needs: " ++ w.irrigation_needs.level ++ " (" ++
        w.irrigation_needs.notes ++ ")"] ++
      (if w.risk_factors ≠ [] then
        ["- Weather Risks: " ++ joinSep "; " (w.risk_factors.take 3)]
       else []) ++
      [""]
    else []

/-- Rendering of one alternatives entry in the prompt. -/
def altText : AltEntry → String
  | .entry crop reason _ => crop ++ " (" ++ reason ++ ")"
  | .plain s => s

/-- Rendering of one risks entry in the prompt. -/
def riskText : RiskEntry → String
  | .entry t _ d _ => t ++ ": " ++ d
  | .market t _ d _ => t ++ ": " ++ d
  | .plain s => s

/-- Rendering of one precautions entry in the prompt. -/
def precautionText : PrecautionEntry → String
  | .entry a p _ => a ++ " [" ++ p ++ "]"
  | .plain s => s

/-- The per-crop block of the `CROP RECOMMENDATIONS` section
(`i` is the zero-based position; the source enumerates from 1). -/
def cropBlock (i : ℕ) (c : CropRec) : List String :=
  ["",
   toString (i + 1) ++ ". " ++ upperStr c.name ++ ":",
   "   - Confidence: " ++ fmtPct (c.confidence * 100) ++ "%",
   "   - Reasoning: " ++ c.reasoning,
   "   - Expected Yield: " ++ c.expected_yield.range,
   "   - Duration: " ++ toString c.duration_months ++ " months"] ++
  (match c.economics with
   | some e =>
     (if e.input_costs.total ≠ 0 then
       ["   - Estimated Input Cost: ₹" ++ fmtPct e.input_costs.total ++ "/ha"]
      else []) ++
     (match e.msp_2024 with
      | some m => if m ≠ 0 then ["   - MSP 2024: ₹" ++ fmtQ m ++ "/quintal"] else []
      | none => [])
   | none => []) ++
  (if c.varieties.isEmpty then []
   else ["   - Recommended Varieties: " ++
     joinSep ", " ((c.varieties.take 2).map VarietyRec.name)]) ++
  (if c.government_schemes.isEmpty then []
   else ["   - Applicable Schemes: " ++
     joinSep ", " ((c.government_schemes.take 2).map Scheme.name)])

/-- The crop block of `_generate_llm_prompt`: emitted when `crop_plan` is
present and carries no (truthy) `error`. -/
def cropSection (cpo : Option CropPlan) : List String :=
  match cpo with
  | none => []
  | some cp =>
    if cp.error.getD "" = "" then
      ["CROP RECOMMENDATIONS:"] ++
      (cp.recommended_crops.enum.map fun p => cropBlock p.1 p.2).flatten ++
      (if cp.alternatives.isEmpty then []
       else ["\nAlternative Crops: " ++ joinSep "; " ((cp.alternatives.take 3).map altText)]) ++
      (if cp.risks.isEmpty then []
       else ["\nKey Risks: " ++ joinSep "; " ((cp.risks.take 3).map riskText)]) ++
      (if cp.precautions.isEmpty then []
       else ["\nPrecautions: " ++ joinSep "; " ((cp.precautions.take 4).map precautionText)])
    else []

/-- `_generate_llm_prompt` (orchestrator.py). -/
def generateLlmPrompt (resp : OrchResponse) (ctx : QueryContext) : String :=
  let base := ["User Query: " ++ resp.query,
    "Response Confidence: " ++ fmtPct (resp.overall_confidence * 100) ++ "%", ""]
  let locationParts :=
    (match ctx.state with
     | some st => if st ≠ "" then ["State: " ++ st] else []
     | none => []) ++
    (match ctx.district with
     | some d => if d ≠ "" then ["District: " ++ d] else []
     | none => [])
  let locBlock :=
    if locationParts ≠ [] then ["Location: " ++ joinSep ", " locationParts, ""] else []
  let header := base ++ locBlock ++ ["Analysis Results:", sepLine]
  let closing := ["", sepLine,
    "Data Confidence: " ++ fmtPct (resp.overall_confidence * 100) ++ "%",
    "Data Sources: " ++ joinSep ", " (resp.data_sources.take 5)]
  let errNote :=
    if resp.agent_errors.isEmpty then []
    else ["\nNote: Some analyses incomplete due to: " ++
      joinSep ", " (resp.agent_errors.map AgentError.agent)]
  joinSep "\n" (header ++ soilSection resp.soil_data ++
    weatherSection resp.weather_data ++ cropSection resp.crop_plan ++
    closing ++ errNote ++ instructionBlock)

/-- The body of `orchestrate_query` up to (and including) the dedup of
`data_sources`; the prompt is attached by `orchestrateQuery`.  The agents
catch all their exceptions internally (see `analyzeSoil`,
`analyzeWeather`, `planCrops`), so the per-agent `except` branches never
append to `agent_errors`, and the top-level catch-all of the source is
unreachable for the modelled body; neither is modelled. -/
def buildOrchestratorCore (query : String) (ctx : QueryContext) (env : ExternEnv) :
    OrchResponse :=
  let ia := analyzeQueryIntent query ctx
  let agents := ia.agents
  let agentCtx := prepareAgentContext ctx
  let soilData := if "soil" ∈ agents then some (analyzeSoil query agentCtx env) else none
  let weatherData :=
    if "weather" ∈ agents then some (analyzeWeather query agentCtx env) else none
  let cropPlan :=
    if "crop_planning" ∈ agents then
      some (planCrops (soilData.getD defaultSoilData) (weatherData.getD defaultWeatherData)
        query agentCtx env)
    else none
  let dataSources :=
    ((soilData.map SoilResult.data_sources).getD []) ++
    ((weatherData.map WeatherResult.data_sources).getD []) ++
    ((cropPlan.map CropPlan.data_sources).getD [])
  let resp0 : OrchResponse :=
    { query := query, intent_analysis := ia, agents_invoked := agents,
      soil_data := soilData, weather_data := weatherData, crop_plan := cropPlan,
      agent_errors := [], overall_confidence := 0, data_sources := dataSources,
      data_freshness_summary := [], llm_prompt_input := "" }
  let resp1 := { resp0 with overall_confidence := calculateOverallConfidence resp0 }
  { resp1 with
    data_freshness_summary := summarizeDataFreshness resp1,
    data_sources := resp1.data_sources.dedup }

/-- `orchestrate_query` (orchestrator.py): the assembled response with the
generated LLM prompt attached. -/
def orchestrateQuery (query : String) (ctx : QueryContext) (env : ExternEnv) :
    OrchResponse :=
  let r := buildOrchestratorCore query ctx env
  { r with llm_prompt_input := generateLlmPrompt r ctx }

set_option maxRecDepth 10000 in
/-- Counterexample to C1 as stated: a normal orchestration run with
`overall_confidence ≥ 0.5` whose prompt still contains the phrase (the
instruction line is emitted unconditionally). -/
theorem estimatesPhrase_counterexample :
    ¬((orchestrateQuery "what crops should i grow in kharif season my soil is clay"
        exQCtxEmpty exEnv).overall_confidence < 0.5) ∧
      strHasSub (orchestrateQuery "what crops should i grow in kharif season my soil is clay"
        exQCtxEmpty exEnv).llm_prompt_input
        "mention that recommendations are estimates" = true := by
  constructor
  · with_unfolding_all decide
  · with_unfolding_all decide

/-- C1 (amended): for every query whose orchestration completes normally,
the generated prompt contains the phrase "mention that recommendations
are estimates" regardless of `overall_confidence` — the emitted
instruction is itself worded conditionally ("If confidence is below
50%, …") and appears in the fixed instruction block. -/
theorem estimatesPhrase_always (query : String) (ctx : QueryContext) (env : ExternEnv) :
    strHasSub (orchestrateQuery query ctx env).llm_prompt_input
      "mention that recommendations are estimates" = true := by
  have h : (orchestrateQuery query ctx env).llm_prompt_input =
      generateLlmPrompt (buildOrchestratorCore query ctx env) ctx := rfl
  rw [h]
  unfold generateLlmPrompt
  dsimp only
  apply strHasSub_joinSep _ _ _
    "- If confidence is below 50%, mention that recommendations are estimates"
  · exact List.mem_append_right _ (by decide)
  · decide

/-- C9: the soil and weather agents catch every internal exception and
return default-filled results (health 5 at confidence 0.1, suitability 5
at confidence 0.1), so the orchestrator's `agent_errors` never carries a
`soil` or `weather` entry. -/
theorem agentsNeverPropagate (query : String) (actx : AgentContext)
    (ctx : QueryContext) (env : ExternEnv) :
    (env.soilFails = true →
      (analyzeSoil query actx env).health_score = 5 ∧
        (analyzeSoil query actx env).health_confidence = 0.1 ∧
        (analyzeSoil query actx env).error.isSome = true) ∧
    (env.weatherFails = true →
      (analyzeWeather query actx env).suitability_score = 5 ∧
        (analyzeWeather query actx env).suitability_confidence = 0.1 ∧
        (analyzeWeather query actx env).error.isSome = true) ∧
    (∀ e ∈ (orchestrateQuery query ctx env).agent_errors,
      e.agent ≠ "soil" ∧ e.agent ≠ "weather") := by
  refine ⟨?_, ?_, ?_⟩
  · intro h
    simp [analyzeSoil, h, soilErrorResult]
  · intro h
    simp [analyzeWeather, h, weatherErrorResult]
  · intro e he
    have hempty : (orchestrateQuery query ctx env).agent_errors = [] := rfl
    rw [hempty] at he
    cases he

/-- A concrete environment in which both agents hit internal errors. -/
def exEnvBothFail : ExternEnv := { exEnv with soilFails := true, weatherFails := true }

/-- Witness for C9 at a concrete run with both failure flags raised. -/
theorem agentsNeverPropagate_witness :
    exEnvBothFail.soilFails = true ∧ exEnvBothFail.weatherFails = true ∧
      ((analyzeSoil "hello" exCtxNoIrrigation exEnvBothFail).health_score = 5 ∧
        (analyzeSoil "hello" exCtxNoIrrigation exEnvBothFail).health_confidence = 0.1 ∧
        (analyzeSoil "hello" exCtxNoIrrigation exEnvBothFail).error.isSome = true) ∧
      ((analyzeWeather "hello" exCtxNoIrrigation exEnvBothFail).suitability_score = 5 ∧
        (analyzeWeather "hello" exCtxNoIrrigation exEnvBothFail).suitability_confidence = 0.1 ∧
        (analyzeWeather "hello" exCtxNoIrrigation exEnvBothFail).error.isSome = true) ∧
      (∀ e ∈ (orchestrateQuery "hello" exQCtxEmpty exEnvBothFail).agent_errors,
        e.agent ≠ "soil" ∧ e.agent ≠ "weather") :=
  ⟨rfl, rfl,
   (agentsNeverPropagate "hello" exCtxNoIrrigation exQCtxEmpty exEnvBothFail).1 rfl,
   (agentsNeverPropagate "hello" exCtxNoIrrigation exQCtxEmpty exEnvBothFail).2.1 rfl,
   (agentsNeverPropagate "hello" exCtxNoIrrigation exQCtxEmpty exEnvBothFail).2.2⟩

/-- Section-completeness of `_generate_llm_prompt`: a present, error-free
agent result always renders its section header into the prompt. -/
theorem generateLlmPrompt_sections (resp : OrchResponse) (ctx : QueryContext) :
    (∀ s, resp.soil_data = some s → s.error = none →
      strHasSub (generateLlmPrompt resp ctx) "SOIL ANALYSIS" = true) ∧
    (∀ w, resp.weather_data = some w → w.error = none →
      strHasSub (generateLlmPrompt resp ctx) "WEATHER ANALYSIS" = true) ∧
    (∀ cp, resp.crop_plan = some cp → cp.error = none →
      strHasSub (generateLlmPrompt resp ctx) "CROP RECOMMENDATIONS" = true) := by
  refine ⟨?_, ?_, ?_⟩
  · intro s hs herr
    unfold generateLlmPrompt
    dsimp only
    apply strHasSub_joinSep _ _ _ "SOIL ANALYSIS:"
    · apply List.mem_append_left
      apply List.mem_append_left
      apply List.mem_append_left
      apply List.mem_append_left
      apply List.mem_append_left
      apply List.mem_append_right
      rw [hs]
      unfold soilSection
      dsimp only
      simp [herr, List.mem_append]
    · decide
  · intro w hw herr
    unfold generateLlmPrompt
    dsimp only
    apply strHasSub_joinSep _ _ _ "WEATHER ANALYSIS:"
    · apply List.mem_append_left
      apply List.mem_append_left
      apply List.mem_append_left
      apply List.mem_append_left
      apply List.mem_append_right
      rw [hw]
      unfold weatherSection
      dsimp only
      simp [herr, List.mem_append]
    · decide
  · intro cp hcp herr
    unfold generateLlmPrompt
    dsimp only
    apply strHasSub_joinSep _ _ _ "CROP RECOMMENDATIONS:"
    · apply List.mem_append_left
      apply List.mem_append_left
      apply List.mem_append_left
      apply List.mem_append_right
      rw [hcp]
      unfold cropSection
      dsimp only
      simp [herr, List.mem_append]
    · decide

/-- C8 (amended): in a normal (non-catch-all) orchestration, every
present agent result that carries no error marker has its section in
`llm_prompt_input`; an error-marked (still non-nil) result does not (see
the counterexample). -/
theorem promptSections_of_cleanResults (query : String) (ctx : QueryContext)
    (env : ExternEnv) :
    (∀ s, (orchestrateQuery query ctx env).soil_data = some s → s.error = none →
      strHasSub (orchestrateQuery query ctx env).llm_prompt_input "SOIL ANALYSIS" = true) ∧
    (∀ w, (orchestrateQuery query ctx env).weather_data = some w → w.error = none →
      strHasSub (orchestrateQuery query ctx env).llm_prompt_input "WEATHER ANALYSIS" = true) ∧
    (∀ cp, (orchestrateQuery query ctx env).crop_plan = some cp → cp.error = none →
      strHasSub (orchestrateQuery query ctx env).llm_prompt_input
        "CROP RECOMMENDATIONS" = true) :=
  generateLlmPrompt_sections (buildOrchestratorCore query ctx env) ctx

/-- A concrete environment in which the soil agent hits an internal
error (e.g. the retrieval service raising). -/
def exEnvSoilFail : ExternEnv := { exEnv with soilFails := true }

set_option maxRecDepth 10000 in
/-- Counterexample to C8 as stated: when the soil agent catches an
internal error, `soil_data` is non-nil (the default-filled error result)
yet the prompt has no SOIL ANALYSIS section. -/
theorem promptSections_counterexample :
    (orchestrateQuery "hello" exQCtxEmpty exEnvSoilFail).soil_data = some soilErrorResult ∧
      soilErrorResult.error ≠ none ∧
      strHasSub (orchestrateQuery "hello" exQCtxEmpty exEnvSoilFail).llm_prompt_input
        "SOIL ANALYSIS" = false := by
  refine ⟨rfl, by decide, ?_⟩
  with_unfolding_all decide

set_option maxRecDepth 10000 in
/-- Witness for C8 (amended): a clean run in which all three results are
present and error-free, and all three sections appear. -/
theorem promptSections_of_cleanResults_witness :
    ((orchestrateQuery "hello" exQCtxEmpty exEnv).soil_data =
        some (analyzeSoil "hello" (prepareAgentContext exQCtxEmpty) exEnv) ∧
      (analyzeSoil "hello" (prepareAgentContext exQCtxEmpty) exEnv).error = none ∧
      strHasSub (orchestrateQuery "hello" exQCtxEmpty exEnv).llm_prompt_input
        "SOIL ANALYSIS" = true) ∧
    ((orchestrateQuery "hello" exQCtxEmpty exEnv).weather_data =
        some (analyzeWeather "hello" (prepareAgentContext exQCtxEmpty) exEnv) ∧
      (analyzeWeather "hello" (prepareAgentContext exQCtxEmpty) exEnv).error = none ∧
      strHasSub (orchestrateQuery "hello" exQCtxEmpty exEnv).llm_prompt_input
        "WEATHER ANALYSIS" = true) ∧
    ((orchestrateQuery "hello" exQCtxEmpty exEnv).crop_plan =
        some (planCrops (analyzeSoil "hello" (prepareAgentContext exQCtxEmpty) exEnv)
          (analyzeWeather "hello" (prepareAgentContext exQCtxEmpty) exEnv)
          "hello" (prepareAgentContext exQCtxEmpty) exEnv) ∧
      (planCrops (analyzeSoil "hello" (prepareAgentContext exQCtxEmpty) exEnv)
        (analyzeWeather "hello" (prepareAgentContext exQCtxEmpty) exEnv)
        "hello" (prepareAgentContext exQCtxEmpty) exEnv).error = none ∧
      strHasSub (orchestrateQuery "hello" exQCtxEmpty exEnv).llm_prompt_input
        "CROP RECOMMENDATIONS" = true) := by
  refine ⟨⟨?_, ?_, ?_⟩, ⟨?_, ?_, ?_⟩, ⟨?_, ?_, ?_⟩⟩
  · with_unfolding_all rfl
  · with_unfolding_all rfl
  · exact (promptSections_of_cleanResults "hello" exQCtxEmpty exEnv).1 _
      (by with_unfolding_all rfl) (by with_unfolding_all rfl)
  · with_unfolding_all rfl
  · with_unfolding_all rfl
  · exact (promptSections_of_cleanResults "hello" exQCtxEmpty exEnv).2.1 _
      (by with_unfolding_all rfl) (by with_unfolding_all rfl)
  · with_unfolding_all rfl
  · with_unfolding_all rfl
  · exact (promptSections_of_cleanResults "hello" exQCtxEmpty exEnv).2.2 _
      (by with_unfolding_all rfl) (by with_unfolding_all rfl)

/-- The specification's weighted mean: soil 0.25, weather 0.25, crop plan
0.35, intent 0.15, averaged over the weights of the present components. -/
def specWeightedMean (soilC weatherC cropC : Option ℚ) (intentC : ℚ) : ℚ :=
  ((soilC.getD 0) * 0.25 + (weatherC.getD 0) * 0.25 + (cropC.getD 0) * 0.35 +
      intentC * 0.15) /
    ((if soilC.isSome then (0.25 : ℚ) else 0) + (if weatherC.isSome then (0.25 : ℚ) else 0) +
      (if cropC.isSome then (0.35 : ℚ) else 0) + 0.15)

/-- The specification's overall confidence: the weighted mean minus 0.1
per agent error, clamped to `[0.1, 1.0]` (and rounded to two decimals as
the source does). -/
def specOverallConfidence (soilC weatherC cropC : Option ℚ) (intentC : ℚ)
    (nErrors : ℕ) : ℚ :=
  round2 (max 0.1 (min 1 (specWeightedMean soilC weatherC cropC intentC -
    0.1 * (nErrors : ℚ))))

theorem clamp01_bounds (x : ℚ) :
    1 / 10 ≤ max 0.1 (min 1 x) ∧ max 0.1 (min 1 x) ≤ 1 := by
  constructor
  · have h : (0.1 : ℚ) = 1 / 10 := by norm_num
    rw [← h]
    exact le_max_left _ _
  · apply max_le (by norm_num)
    exact min_le_of_left_le le_rfl

/-- `_calculate_overall_confidence` equals the specification's formula
and lies in `[0.1, 1.0]`, for every response. -/
theorem calcOverall_spec (resp : OrchResponse) :
    calculateOverallConfidence resp =
      specOverallConfidence (resp.soil_data.map SoilResult.health_confidence)
        (resp.weather_data.map WeatherResult.suitability_confidence)
        (resp.crop_plan.map CropPlan.overall_confidence)
        resp.intent_analysis.confidence resp.agent_errors.length ∧
    1 / 10 ≤ calculateOverallConfidence resp ∧ calculateOverallConfidence resp ≤ 1 := by
  unfold calculateOverallConfidence specOverallConfidence specWeightedMean
  rcases resp.soil_data with _ | s <;> rcases resp.weather_data with _ | w <;>
    rcases resp.crop_plan with _ | c <;>
  · dsimp only
    simp only [List.nil_append, List.cons_append, List.append_nil, List.map_cons,
      List.map_nil, List.sum_cons, List.sum_nil, Option.map_some', Option.map_none',
      Option.getD_some, Option.getD_none, Option.isSome_some, Option.isSome_none,
      if_true, if_false, ne_eq, reduceCtorEq, not_false_iff, ite_true, ite_false,
      Bool.false_eq_true]
    refine ⟨?_, ?_⟩
    · congr 1
      ring_nf
    · constructor
      · exact (round2_bounds _ (clamp01_bounds _).1 (clamp01_bounds _).2).1
      · exact (round2_bounds _ (clamp01_bounds _).1 (clamp01_bounds _).2).2

/-- C2: for every well-formed query (the hypothesis mirrors the claim;
the property in fact holds for every query), the orchestrator's
`overall_confidence` is the weighted mean of the present confidences
(soil 0.25, weather 0.25, crop plan 0.35, intent 0.15) minus 0.1 per
agent error, clamped to `[0.1, 1.0]` — in particular it lies in
`[0.1, 1.0]`. -/
theorem overallConfidence_formula_bounds (query : String) (ctx : QueryContext)
    (env : ExternEnv) (_hq : query ≠ "") :
    (orchestrateQuery query ctx env).overall_confidence =
      specOverallConfidence
        ((orchestrateQuery query ctx env).soil_data.map SoilResult.health_confidence)
        ((orchestrateQuery query ctx env).weather_data.map WeatherResult.suitability_confidence)
        ((orchestrateQuery query ctx env).crop_plan.map CropPlan.overall_confidence)
        (orchestrateQuery query ctx env).intent_analysis.confidence
        (orchestrateQuery query ctx env).agent_errors.length ∧
    1 / 10 ≤ (orchestrateQuery query ctx env).overall_confidence ∧
    (orchestrateQuery query ctx env).overall_confidence ≤ 1 :=
  calcOverall_spec _

/-- Witness for C2 at the concrete query `"hello"`. -/
theorem overallConfidence_formula_bounds_witness :
    ("hello" : String) ≠ "" ∧
      (orchestrateQuery "hello" exQCtxEmpty exEnv).overall_confidence =
        specOverallConfidence
          ((orchestrateQuery "hello" exQCtxEmpty exEnv).soil_data.map
            SoilResult.health_confidence)
          ((orchestrateQuery "hello" exQCtxEmpty exEnv).weather_data.map
            WeatherResult.suitability_confidence)
          ((orchestrateQuery "hello" exQCtxEmpty exEnv).crop_plan.map
            CropPlan.overall_confidence)
          (orchestrateQuery "hello" exQCtxEmpty exEnv).intent_analysis.confidence
          (orchestrateQuery "hello" exQCtxEmpty exEnv).agent_errors.length ∧
      1 / 10 ≤ (orchestrateQuery "hello" exQCtxEmpty exEnv).overall_confidence ∧
      (orchestrateQuery "hello" exQCtxEmpty exEnv).overall_confidence ≤ 1 :=
  ⟨by decide,
   (overallConfidence_formula_bounds "hello" exQCtxEmpty exEnv (by decide)).1,
   (overallConfidence_formula_bounds "hello" exQCtxEmpty exEnv (by decide)).2.1,
   (overallConfidence_formula_bounds "hello" exQCtxEmpty exEnv (by decide)).2.2⟩
